import Mathlib

/-! ## Definitions -/

/-- Layout configuration record (utils/layoutManager.ts, `LayoutConfig`). -/
structure LayoutConfig where
  SIDEBAR_WIDTH : Int
  MIN_COMFORTABLE_WIDTH : Int
  MAX_COMFORTABLE_WIDTH : Int
  MIN_COMFORTABLE_HEIGHT : Int
deriving Repr, DecidableEq

/-- Result of layout calculation (`LayoutConfiguration` in LayoutCalculator.ts). -/
structure LayoutConfiguration where
  cols : Nat
  rows : Nat
  windowWidth : Int
  paneDistribution : List Nat
  actualPaneWidth : Rat
deriving Repr, DecidableEq

/-- `Math.ceil(n / cols)` for natural `n` and positive `cols`. -/
def jsCeilDiv (n cols : Nat) : Nat := (n + cols - 1) / cols

/-- `LayoutCalculator.distributePanes`: even distribution, the first
`numPanes % cols` columns get one extra pane. -/
def distributePanes (numPanes cols : Nat) : List Nat :=
  (List.range cols).map
    (fun i => numPanes / cols + if i < numPanes % cols then 1 else 0)

/-- `LayoutCalculator.scoreLayout` (private): balance x height x width score. -/
def scoreLayout (cfg : LayoutConfig) (numContentPanes cols : Nat)
    (actualPaneWidth : Rat) (paneHeight terminalHeight : Int) : Rat :=
  let panesInLastRow : Nat :=
    if numContentPanes % cols = 0 then cols else numContentPanes % cols
  let balanceScore : Rat := if panesInLastRow = 1 then 1/2 else 1
  let heightScore : Rat := (paneHeight : Rat) / (terminalHeight : Rat)
  let widthScore : Rat :=
    if actualPaneWidth ≤ (cfg.MAX_COMFORTABLE_WIDTH : Rat) then 1 else 4/5
  balanceScore * heightScore * widthScore

/-- One iteration of the candidate loop in `calculateOptimalLayout`:
feasibility filter followed by the layout/score computation. Returns `none`
exactly when the candidate column count fails the minimum-size filter. -/
def evalCandidate (cfg : LayoutConfig) (numContentPanes : Nat)
    (terminalWidth terminalHeight : Int) (cols : Nat) :
    Option (LayoutConfiguration × Rat) :=
  let minFeasiblePaneWidth : Int :=
    max 1 (min cfg.MIN_COMFORTABLE_WIDTH cfg.MAX_COMFORTABLE_WIDTH)
  let rows := jsCeilDiv numContentPanes cols
  let columnBorders : Int := (cols : Int) - 1
  let rowBorders : Int := (rows : Int) - 1
  let minRequiredWidth :=
    cfg.SIDEBAR_WIDTH + (cols : Int) * minFeasiblePaneWidth + columnBorders
  let minRequiredHeight := (rows : Int) * cfg.MIN_COMFORTABLE_HEIGHT + rowBorders
  if minRequiredWidth ≤ terminalWidth ∧ minRequiredHeight ≤ terminalHeight then
    let idealMaxWidth :=
      cfg.SIDEBAR_WIDTH + (cols : Int) * cfg.MAX_COMFORTABLE_WIDTH + columnBorders
    let windowWidth := min idealMaxWidth terminalWidth
    let effectiveContentWidth := windowWidth - cfg.SIDEBAR_WIDTH - columnBorders
    let actualPaneWidth : Rat := (effectiveContentWidth : Rat) / (cols : Rat)
    let distribution := distributePanes numContentPanes cols
    let availableHeight := terminalHeight - rowBorders
    let paneHeight : Int := Int.fdiv availableHeight (rows : Int)
    let score :=
      scoreLayout cfg numContentPanes cols actualPaneWidth paneHeight terminalHeight
    some (⟨cols, rows, windowWidth, distribution, actualPaneWidth⟩, score)
  else
    none

/-- JavaScript `cols < (bestLayout?.cols || Infinity)`: `undefined` and `0`
both fall through to `Infinity`. -/
def ltColsOrInfinity (cols : Nat) (best : Option LayoutConfiguration) : Bool :=
  match best with
  | none => true
  | some b => if b.cols = 0 then true else decide (cols < b.cols)

/-- The candidate loop of `calculateOptimalLayout`, iterating column counts
`counter, counter - 1, ..., 1` and carrying `bestScore` / `bestLayout`. -/
def layoutLoop (cfg : LayoutConfig) (numContentPanes : Nat)
    (terminalWidth terminalHeight : Int) :
    Nat → Rat → Option LayoutConfiguration → Option LayoutConfiguration
  | 0, _, best => best
  | counter + 1, bestScore, best =>
    match evalCandidate cfg numContentPanes terminalWidth terminalHeight (counter + 1) with
    | none => layoutLoop cfg numContentPanes terminalWidth terminalHeight counter bestScore best
    | some (layout, score) =>
      let isBetter : Bool :=
        decide (score > bestScore) ||
          (decide (score = bestScore) && ltColsOrInfinity (counter + 1) best)
      if isBetter then
        layoutLoop cfg numContentPanes terminalWidth terminalHeight counter score (some layout)
      else
        layoutLoop cfg numContentPanes terminalWidth terminalHeight counter bestScore best

/-- The single-column fallback returned when no candidate passes the filter. -/
def fallbackLayout (cfg : LayoutConfig) (numContentPanes : Nat)
    (terminalWidth : Int) : LayoutConfiguration :=
  ⟨1, numContentPanes, terminalWidth, [numContentPanes],
    ((terminalWidth - cfg.SIDEBAR_WIDTH : Int) : Rat)⟩

/-- `LayoutCalculator.calculateOptimalLayout`. -/
def calculateOptimalLayout (cfg : LayoutConfig) (numContentPanes : Nat)
    (terminalWidth terminalHeight : Int) : LayoutConfiguration :=
  if numContentPanes = 0 then
    ⟨0, 0, terminalWidth, [], 0⟩
  else
    match layoutLoop cfg numContentPanes terminalWidth terminalHeight
        numContentPanes (-1) none with
    | some best => best
    | none => fallbackLayout cfg numContentPanes terminalWidth

/-- The layout configuration named by claim C6: 40-character sidebar,
minimum pane width 60, maximum 100, minimum height 15 (the constants of
utils/tmux.ts). -/
def tmuxLayoutConfig : LayoutConfig := ⟨40, 60, 100, 15⟩

/-- Lowercase hexadecimal digit characters, as produced by JavaScript
`Number.prototype.toString(16)`. -/
def hexDigitChar : Nat → Char
  | 0 => '0'
  | 1 => '1'
  | 2 => '2'
  | 3 => '3'
  | 4 => '4'
  | 5 => '5'
  | 6 => '6'
  | 7 => '7'
  | 8 => '8'
  | 9 => '9'
  | 10 => 'a'
  | 11 => 'b'
  | 12 => 'c'
  | 13 => 'd'
  | 14 => 'e'
  | 15 => 'f'
  | _ => '0'

/-- Base-16 digit expansion, most significant digit first (JavaScript
`n.toString(16)`). -/
def toHexChars (n : Nat) : List Char :=
  if n < 16 then [hexDigitChar n]
  else toHexChars (n / 16) ++ [hexDigitChar (n % 16)]
termination_by n
decreasing_by exact Nat.div_lt_self (by omega) (by omega)

/-- JavaScript `s.padStart(len, c)`. -/
def padStart (s : String) (len : Nat) (c : Char) : String :=
  if len ≤ s.length then s
  else String.mk (List.replicate (len - s.length) c) ++ s

/-- One step of the tmux layout checksum accumulator:
rotate right one bit, add the byte, mask to 16 bits. -/
def jsChecksumStep (c byte : Nat) : Nat :=
  (c / 2 + c % 2 * 32768 + byte) % 65536

/-- `calculateLayoutChecksum` (utils/tmux.ts): fold the rotate-add-mask
accumulator over the string, then render as 4 zero-padded lowercase hex
digits. -/
def calculateLayoutChecksum (layout : String) : String :=
  let checksum := layout.data.foldl (fun c ch => jsChecksumStep c ch.toNat) 0
  padStart (String.mk (toHexChars checksum)) 4 '0'

/-- JavaScript `s.replace(pat, '')` for a plain-string pattern: removes the
first occurrence only. -/
def removeFirstOcc (s pat : String) : String :=
  match s.splitOn pat with
  | [] => s
  | [x] => x
  | x :: y :: rest => String.intercalate pat ((x ++ y) :: rest)

/-- Decimal rendering of an integer, as JavaScript template interpolation. -/
def intStr (i : Int) : String := toString i

/-- The inner column loop of `generateSidebarGridLayout`: emits one
`WxH,X,Y,id` cell per pane, advancing the absolute X position by the cell
width plus one border between adjacent cells. -/
def buildRowCells (rowHeight currentY : Int) :
    List (String × Int) → Int → List String
  | [], _ => []
  | (paneId, w) :: rest, x =>
    (intStr w ++ "x" ++ intStr rowHeight ++ "," ++ intStr x ++ "," ++
        intStr currentY ++ "," ++ removeFirstOcc paneId "%")
      :: buildRowCells rowHeight currentY rest (x + w + if rest.isEmpty then 0 else 1)

/-- Per-row cell widths of `generateSidebarGridLayout`: in a spacer row the
content panes are fixed at `maxComfortableWidth` and the spacer absorbs the
remainder; otherwise the width divides evenly with the remainder added to
the first pane. -/
def rowCellWidths (contentWidth maxComfortableWidth : Int)
    (rowHasSpacer : Bool) (len : Nat) : List Int :=
  if rowHasSpacer then
    let numContent := len - 1
    let bordersInRow : Int := (len : Int) - 1
    let totalContentWidth : Int := (numContent : Int) * maxComfortableWidth
    let remainingWidth := contentWidth - totalContentWidth - bordersInRow
    List.replicate numContent maxComfortableWidth ++ [remainingWidth]
  else
    let bordersInRow : Int := (len : Int) - 1
    let availableWidth := contentWidth - bordersInRow
    let evenWidth := Int.fdiv availableWidth (len : Int)
    let remainder := availableWidth - evenWidth * (len : Int)
    if len = 0 then [] else (evenWidth + remainder) :: List.replicate (len - 1) evenWidth

/-- The single-pane-row fixup in `generateSidebarGridLayout`: split on commas
and overwrite parts 1 and 2 (X and Y) with absolute coordinates. -/
def setParts (s : String) (x y : Int) : String :=
  match s.splitOn "," with
  | a :: _ :: _ :: rest => String.intercalate "," (a :: intStr x :: intStr y :: rest)
  | _ => s

/-- The row loop of `generateSidebarGridLayout`. `rowsLeft` counts down the
remaining rows (`rowsLeft = 1` is the last row, which uses all remaining
height); multi-pane rows are wrapped in a brace container, single-pane rows
are emitted as bare leaves with fixed-up absolute coordinates. -/
def buildGridRows (contentPanes : List String) (cols : Nat)
    (contentWidth contentStartX paneHeight windowHeight : Int)
    (maxComfortableWidth : Int) (lastPaneIsSpacer : Bool) :
    Nat → Nat → Int → List String
  | 0, _, _ => []
  | rowsLeft + 1, paneIndex, currentY =>
    let isLastRow : Bool := rowsLeft == 0
    let rowHeight : Int := if isLastRow then windowHeight - currentY else paneHeight
    let panesInThisRow := (contentPanes.drop paneIndex).take cols
    let len := panesInThisRow.length
    let rowHasSpacer : Bool := lastPaneIsSpacer && isLastRow &&
      !panesInThisRow.isEmpty && (panesInThisRow.getLast? == contentPanes.getLast?)
    let widths := rowCellWidths contentWidth maxComfortableWidth rowHasSpacer len
    let cells := panesInThisRow.zip widths
    let rowPanes := buildRowCells rowHeight currentY cells contentStartX
    let entry : List String :=
      if 1 < rowPanes.length then
        [intStr contentWidth ++ "x" ++ intStr rowHeight ++ "," ++ intStr contentStartX ++
          "," ++ intStr currentY ++ "\x7b" ++ String.intercalate "," rowPanes ++ "\x7d"]
      else if rowPanes.length = 1 then
        [setParts (rowPanes.headD "") contentStartX currentY]
      else []
    entry ++ buildGridRows contentPanes cols contentWidth contentStartX paneHeight
      windowHeight maxComfortableWidth lastPaneIsSpacer rowsLeft (paneIndex + len)
      (if isLastRow then currentY else currentY + paneHeight + 1)

/-- The single-row top-level fixup in `generateSidebarGridLayout`:
`row.replace(/^(\d+x\d+),0,/, '$1,<contentStartX>,')`. -/
def adjustSingleRowX (row : String) (contentStartX : Int) : String :=
  let cs := row.data
  let d1 := cs.takeWhile Char.isDigit
  let r1 := cs.dropWhile Char.isDigit
  if d1.isEmpty then row
  else
    match r1 with
    | 'x' :: r2 =>
      let d2 := r2.takeWhile Char.isDigit
      let r3 := r2.dropWhile Char.isDigit
      if d2.isEmpty then row
      else
        match r3 with
        | ',' :: '0' :: ',' :: rest =>
          String.mk (d1 ++ 'x' :: d2) ++ "," ++ intStr contentStartX ++ "," ++ String.mk rest
        | _ => row
    | _ => row

/-- The descriptor body built by `generateSidebarGridLayout` before the
checksum is prepended (`layoutWithoutChecksum` in the source); `none` when
there are no grid rows (the source returns the empty string). The
`lastPaneIsSpacer` flag stands for the tmux title observation made by the
source. -/
def generateSidebarGridLayoutBody (controlPaneId : String)
    (contentPanes : List String) (sidebarWidth windowWidth windowHeight : Int)
    (columns : Nat) (maxComfortableWidth : Int) (lastPaneIsSpacer : Bool) :
    Option String :=
  let numContentPanes := contentPanes.length
  let cols := columns
  let rows := jsCeilDiv numContentPanes cols
  let contentWidth := windowWidth - sidebarWidth - 1
  let contentStartX := sidebarWidth + 1
  let bordersHeight : Int := (rows : Int) - 1
  let availableHeight := windowHeight - bordersHeight
  let paneHeight := Int.fdiv availableHeight (rows : Int)
  let sidebarId := removeFirstOcc controlPaneId "%"
  let gridRows := buildGridRows contentPanes cols contentWidth contentStartX paneHeight
    windowHeight maxComfortableWidth lastPaneIsSpacer rows 0 0
  let sidebar := intStr sidebarWidth ++ "x" ++ intStr windowHeight ++ ",0,0," ++ sidebarId
  match gridRows with
  | [] => none
  | [row] =>
    let contentArea := adjustSingleRowX row contentStartX
    some (intStr windowWidth ++ "x" ++ intStr windowHeight ++ ",0,0" ++ "\x7b" ++
      sidebar ++ "," ++ contentArea ++ "\x7d")
  | _ :: _ :: _ =>
    let contentArea := intStr contentWidth ++ "x" ++ intStr windowHeight ++ "," ++
      intStr contentStartX ++ ",0[" ++ String.intercalate "," gridRows ++ "]"
    some (intStr windowWidth ++ "x" ++ intStr windowHeight ++ ",0,0" ++ "\x7b" ++
      sidebar ++ "," ++ contentArea ++ "\x7d")

/-- `generateSidebarGridLayout` (utils/tmux.ts): checksum prepended to the
descriptor body, or the empty string when there are no content panes. -/
def generateSidebarGridLayout (controlPaneId : String)
    (contentPanes : List String) (sidebarWidth windowWidth windowHeight : Int)
    (columns : Nat) (maxComfortableWidth : Int) (lastPaneIsSpacer : Bool) : String :=
  match generateSidebarGridLayoutBody controlPaneId contentPanes sidebarWidth
      windowWidth windowHeight columns maxComfortableWidth lastPaneIsSpacer with
  | some body => calculateLayoutChecksum body ++ "," ++ body
  | none => ""

/-- Characters `0-9a-f`. -/
def isLowerHexDigit (c : Char) : Bool :=
  (decide ('0' ≤ c) && decide (c ≤ '9')) || (decide ('a' ≤ c) && decide (c ≤ 'f'))

/-- Observable boundary behaviour of one `recalculateAndApplyLayout` call:
whether the returned promise resolves normally (the entire body is wrapped
in try/catch, so it always does), whether the invalid-dimension warning was
logged, and whether control reached the layout pipeline past the argument
validation. -/
structure RecalcBoundaryResult where
  returnsNormally : Bool
  warnedInvalidDims : Bool
  proceeded : Bool
deriving Repr, DecidableEq

/-- The argument-validation prologue of `recalculateAndApplyLayout`
(utils/layoutManager.ts lines 320-339): a falsy `controlPaneId` or a
non-positive dimension causes an early `return` (after a warn-level log
unless logs are suppressed); no exception propagates to the caller. -/
def recalcEntryValidation (controlPaneId : String) (terminalWidth terminalHeight : Int)
    (suppressLogs : Bool) : RecalcBoundaryResult :=
  if controlPaneId = "" then
    ⟨true, false, false⟩
  else if terminalWidth ≤ 0 ∨ terminalHeight ≤ 0 then
    ⟨true, !suppressLogs, false⟩
  else
    ⟨true, false, true⟩

/-- Modelled from the spec: `constants/layout.ts` is not under src/; the
repository documentation states the valid range 40-300 for both pane-width
bounds and the test suite pins the defaults `minPaneWidth = 50`,
`maxPaneWidth = 80`. -/
def DEFAULT_MIN_PANE_WIDTH : Int := 50

/-- Modelled from the spec: default `maxPaneWidth` (see
`DEFAULT_MIN_PANE_WIDTH`). -/
def DEFAULT_MAX_PANE_WIDTH : Int := 80

/-- Modelled from the spec: lower validation bound for `minPaneWidth`. -/
def MIN_MIN_PANE_WIDTH : Int := 40

/-- Modelled from the spec: upper validation bound for `minPaneWidth`. -/
def MAX_MIN_PANE_WIDTH : Int := 300

/-- Modelled from the spec: lower validation bound for `maxPaneWidth`. -/
def MIN_MAX_PANE_WIDTH : Int := 40

/-- Modelled from the spec: upper validation bound for `maxPaneWidth`. -/
def MAX_MAX_PANE_WIDTH : Int := 300

/-- `isValidMinPaneWidth` (settingsManager.ts); integrality is carried by
the `Int` type. -/
def isValidMinPaneWidth (v : Int) : Bool :=
  decide (MIN_MIN_PANE_WIDTH ≤ v) && decide (v ≤ MAX_MIN_PANE_WIDTH)

/-- `isValidMaxPaneWidth` (settingsManager.ts). -/
def isValidMaxPaneWidth (v : Int) : Bool :=
  decide (MIN_MAX_PANE_WIDTH ≤ v) && decide (v ≤ MAX_MAX_PANE_WIDTH)

/-- The pane-width portion of a stored settings object (`undefined` keys as
`none`). -/
structure StoredPaneWidths where
  minPaneWidth : Option Int
  maxPaneWidth : Option Int
deriving Repr, DecidableEq

/-- The pane-width-relevant state of a `SettingsManager`: the global and the
project settings stores. -/
structure SettingsState where
  globalSettings : StoredPaneWidths
  projectSettings : StoredPaneWidths
deriving Repr, DecidableEq

/-- Requested scope of an update. -/
inductive SettingsScope
  | global
  | project
deriving Repr, DecidableEq

/-- `getValidGlobalMinPaneWidth` (settingsManager.ts). -/
def getValidGlobalMinPaneWidth (g : StoredPaneWidths) : Int :=
  match g.minPaneWidth with
  | some v => if isValidMinPaneWidth v then v else DEFAULT_MIN_PANE_WIDTH
  | none => DEFAULT_MIN_PANE_WIDTH

/-- `getValidGlobalMaxPaneWidth` (settingsManager.ts). -/
def getValidGlobalMaxPaneWidth (g : StoredPaneWidths) : Int :=
  match g.maxPaneWidth with
  | some v => if isValidMaxPaneWidth v then v else DEFAULT_MAX_PANE_WIDTH
  | none => DEFAULT_MAX_PANE_WIDTH

/-- `resolveGlobalPaneWidths` (settingsManager.ts): apply overrides on top of
the validated global values; if `min > max`, clamp the overridden `min` down
to `max` when only `min` was overridden, otherwise raise `max` to `min`. -/
def resolveGlobalPaneWidths (g : StoredPaneWidths)
    (ovMin ovMax : Option Int) : Int × Int :=
  let hasMinOverride := ovMin.isSome
  let hasMaxOverride := ovMax.isSome
  let minPaneWidth := match ovMin with
    | some v => v
    | none => getValidGlobalMinPaneWidth g
  let maxPaneWidth := match ovMax with
    | some v => v
    | none => getValidGlobalMaxPaneWidth g
  if minPaneWidth > maxPaneWidth then
    if hasMinOverride && !hasMaxOverride then (maxPaneWidth, maxPaneWidth)
    else (minPaneWidth, minPaneWidth)
  else (minPaneWidth, maxPaneWidth)

/-- The pane-width component of `getSettings`: the merged object's
`minPaneWidth`/`maxPaneWidth` are overwritten from the global store alone
(project overrides ignored). -/
def getSettingsPaneWidths (st : SettingsState) : Int × Int :=
  resolveGlobalPaneWidths st.globalSettings none none

/-- `updateSetting('minPaneWidth', v, scope)`: validation throws (leaving the
state unchanged) on an out-of-range value; otherwise both global bounds are
set from `resolveGlobalPaneWidths` and any project-scope pane-width keys are
deleted, regardless of the requested `scope`. -/
def updateSettingMinPaneWidth (st : SettingsState) (v : Int)
    (_scope : SettingsScope) : SettingsState :=
  if isValidMinPaneWidth v then
    let p := resolveGlobalPaneWidths st.globalSettings (some v) none
    ⟨⟨some p.1, some p.2⟩, ⟨none, none⟩⟩
  else st

/-- `updateSetting('maxPaneWidth', v, scope)` (see
`updateSettingMinPaneWidth`). -/
def updateSettingMaxPaneWidth (st : SettingsState) (v : Int)
    (_scope : SettingsScope) : SettingsState :=
  if isValidMaxPaneWidth v then
    let p := resolveGlobalPaneWidths st.globalSettings none (some v)
    ⟨⟨some p.1, some p.2⟩, ⟨none, none⟩⟩
  else st

/-- The pane-width portion of `updateSettings`: if either bound is present
(and both present bounds validate), both global bounds are set from
`resolveGlobalPaneWidths` and the project-scope pane-width keys are deleted,
regardless of the requested `scope`. -/
def updateSettingsPaneWidths (st : SettingsState) (vmin vmax : Option Int)
    (_scope : SettingsScope) : SettingsState :=
  let minValid := match vmin with
    | some v => isValidMinPaneWidth v
    | none => true
  let maxValid := match vmax with
    | some v => isValidMaxPaneWidth v
    | none => true
  if minValid && maxValid then
    if vmin.isSome || vmax.isSome then
      let p := resolveGlobalPaneWidths st.globalSettings vmin vmax
      ⟨⟨some p.1, some p.2⟩, ⟨none, none⟩⟩
    else st
  else st

/-- Pane kind (`DmuxPane.type` in types.ts): worktree panes own an isolated
working copy, shell panes are plain terminals. -/
inductive PaneKind
  | worktree
  | shell
deriving Repr, DecidableEq

/-- The claim-relevant fields of a `DmuxPane` record (types.ts): stable
logical `id`, volatile external `paneId`, `slug`, kind, and worktree path. -/
structure DmuxPaneRec where
  id : String
  paneId : String
  slug : String
  kind : PaneKind
  worktreePath : Option String
deriving Repr, DecidableEq

/-- One live tmux pane as observed by the pass: its pane id and title. -/
structure LivePane where
  paneId : String
  title : String
deriving Repr, DecidableEq

/-- The observed tmux environment: the list of live panes. -/
structure TmuxView where
  live : List LivePane
deriving Repr, DecidableEq

/-- `allPaneIds` as fetched by the pass. -/
def allPaneIds (v : TmuxView) : List String := v.live.map (·.paneId)

/-- The title-to-id association fetched by the pass. -/
def titleToId (v : TmuxView) : List (String × String) :=
  v.live.map (fun lp => (lp.title, lp.paneId))

/-- JavaScript `Array.prototype.includes` on a string list. -/
def memB (s : String) : List String → Bool
  | [] => false
  | t :: rest => if s = t then true else memB s rest

/-- Association lookup in the title-to-id map. -/
def lookupTitle : List (String × String) → String → Option String
  | [], _ => none
  | (t, i) :: rest, s => if t = s then some i else lookupTitle rest s

/-- Modelled from the spec: `rebindPaneByTitle` (utils/paneRebinding.ts, not
under src/) — if the record's external pane id is still live, keep the
record; otherwise rebind it to a live pane whose title equals the record's
slug, when such a pane exists. -/
def rebindPaneByTitle (p : DmuxPaneRec) (t2i : List (String × String))
    (ids : List String) : DmuxPaneRec :=
  if memB p.paneId ids then p
  else
    match lookupTitle t2i p.slug with
    | some newId => { p with paneId := newId }
    | none => p

/-- Result of the rebind-and-filter step. -/
structure RebindFilterResult where
  activePanes : List DmuxPaneRec
  shellPanesRemoved : Bool
  worktreePanesToRecreate : List DmuxPaneRec
deriving Repr, DecidableEq

/-- Modelled from the spec: `rebindAndFilterPanes` (hooks/usePaneSync.ts,
not under src/) — rebind every record by title; shell-kind records that
remain dead are dropped permanently (flagged `shellPanesRemoved`);
worktree-kind records that remain dead are kept and queued for
recreation. -/
def rebindAndFilterPanes :
    List DmuxPaneRec → List (String × String) → List String → RebindFilterResult
  | [], _, _ => ⟨[], false, []⟩
  | p :: rest, t2i, ids =>
    let r := rebindAndFilterPanes rest t2i ids
    let p' := rebindPaneByTitle p t2i ids
    if memB p'.paneId ids then
      ⟨p' :: r.activePanes, r.shellPanesRemoved, r.worktreePanesToRecreate⟩
    else if p'.kind = PaneKind.shell then
      ⟨r.activePanes, true, r.worktreePanesToRecreate⟩
    else
      ⟨p' :: r.activePanes, r.shellPanesRemoved, p' :: r.worktreePanesToRecreate⟩

/-- A pane created during recreation: the fresh tmux id, the directory the
new pane was `cd`'d into, and its (slug) title. -/
structure CreatedPane where
  paneId : String
  cwd : String
  title : String
deriving Repr, DecidableEq

/-- Modelled from the spec: `recreateKilledWorktreePanes`
(hooks/usePaneLoading.ts, not under src/) — every still-dead worktree-kind
record gets a fresh pane split and `cd`'d into the record's original
`worktreePath`, and the record's external pane id is updated in place (same
logical id). `fresh` supplies the ids tmux assigns to created panes; the
created pane carries the record's slug as title (titles are enforced to
match slugs at the end of the pass). -/
def recreateKilledWorktreePanes (fresh : Nat → String) (ids : List String) :
    List DmuxPaneRec → Nat → List DmuxPaneRec × List CreatedPane
  | [], _ => ([], [])
  | p :: rest, k =>
    if !memB p.paneId ids && decide (p.kind = PaneKind.worktree) then
      let newId := fresh k
      let out := recreateKilledWorktreePanes fresh ids rest (k + 1)
      ({ p with paneId := newId } :: out.1, ⟨newId, p.worktreePath.getD "", p.slug⟩ :: out.2)
    else
      let out := recreateKilledWorktreePanes fresh ids rest k
      (p :: out.1, out.2)

/-- Modelled from the spec: `detectAndAddShellPanes`
(hooks/useShellDetection.ts, not under src/) — every live pane that is not
tracked, not the control pane, and not the reserved spacer title is adopted
as a new shell-kind record. -/
def detectAndAddShellPanes (panes : List DmuxPaneRec) (live : List LivePane)
    (controlPaneId : String) : List DmuxPaneRec × Bool :=
  let tracked := panes.map (·.paneId)
  let untracked := live.filter (fun lp =>
    !memB lp.paneId tracked && decide (lp.paneId ≠ controlPaneId) &&
      decide (lp.title ≠ "dmux-spacer"))
  (panes ++ untracked.map
      (fun lp => ⟨lp.paneId, lp.paneId, lp.title, PaneKind.shell, none⟩),
    !untracked.isEmpty)

/-- Insertion step of JavaScript `Array.prototype.sort()` on strings. -/
def insertSorted (s : String) : List String → List String
  | [] => [s]
  | t :: rest => if s ≤ t then s :: t :: rest else t :: insertSorted s rest

/-- Sort a string list (JavaScript default sort). -/
def sortStrings (l : List String) : List String := l.foldr insertSorted []

/-- The `id:paneId` sorted-join comparison key of `loadPanes`. -/
def encodePaneIds (panes : List DmuxPaneRec) : String :=
  String.intercalate "," (sortStrings (panes.map (fun p => p.id ++ ":" ++ p.paneId)))

/-- `loadPanes`' id-remap check: some position where the loaded record and
the final record carry different external pane ids (positions past either
list's end do not count, as in the source's `loadedPanes[idx] &&`). -/
def idsChangedCheck : List DmuxPaneRec → List DmuxPaneRec → Bool
  | f :: fs, l :: ls => decide (l.paneId ≠ f.paneId) || idsChangedCheck fs ls
  | _, _ => false

/-- Result of one reconciliation pass. -/
structure LoadPanesPassResult where
  finalPanes : List DmuxPaneRec
  created : List CreatedPane
  idsChanged : Bool
  shellPanesAdded : Bool
  shellPanesRemoved : Bool
  wrote : Bool
  viewAfter : TmuxView
deriving Repr, DecidableEq

/-- The non-initial-load body of `loadPanes` (hooks/usePanes.ts, lines
1822-1899): rebind and filter; recreate killed worktree panes, re-fetch ids
and re-rebind; detect untracked shell panes (against the pre-recreation pane
ids, as the source does); then persist only when an id remap, a shell-pane
removal, or an untracked addition occurred. The tmux environment is the
explicit `view`; `fresh` supplies the ids of panes created by recreation. -/
def loadPanesPass (prevPanes loadedPanes : List DmuxPaneRec) (view : TmuxView)
    (controlPaneId : String) (fresh : Nat → String) : LoadPanesPassResult :=
  let ids := allPaneIds view
  let r := rebindAndFilterPanes loadedPanes (titleToId view) ids
  let step2 : List DmuxPaneRec × List CreatedPane × TmuxView :=
    if r.worktreePanesToRecreate.isEmpty then (r.activePanes, [], view)
    else
      let out := recreateKilledWorktreePanes fresh ids r.activePanes 0
      let view' : TmuxView := ⟨view.live ++ out.2.map (fun c => ⟨c.paneId, c.title⟩)⟩
      let rebound := out.1.map
        (fun p => rebindPaneByTitle p (titleToId view') (allPaneIds view'))
      (rebound, out.2, view')
  let d := detectAndAddShellPanes step2.1 view.live controlPaneId
  let idsChanged := idsChangedCheck d.1 loadedPanes
  let wrote :=
    (decide (encodePaneIds prevPanes ≠ encodePaneIds d.1) || d.2 || r.shellPanesRemoved)
      && (idsChanged || d.2 || r.shellPanesRemoved)
  ⟨d.1, step2.2.1, idsChanged, d.2, r.shellPanesRemoved, wrote, step2.2.2⟩

/-- A pane collection is consistent with a tmux view when every tracked
record's external id is live, and every live pane is the control pane, the
spacer, or tracked. This is the state of affairs the spec requires
immediately after a successful reconciliation pass. -/
def consistentView (panes : List DmuxPaneRec) (view : TmuxView)
    (controlPaneId : String) : Prop :=
  (∀ p ∈ panes, memB p.paneId (allPaneIds view) = true) ∧
  (∀ lp ∈ view.live, lp.paneId = controlPaneId ∨ lp.title = "dmux-spacer" ∨
    memB lp.paneId (panes.map (·.paneId)) = true)

/-- Modelled from the spec: one lifecycle lock entry of the
`PaneLifecycleManager` (services/PaneLifecycleManager.ts, not under src/),
keyed by a pane identifier and holding the close reason and acquisition
time. -/
structure LockEntry where
  key : String
  reason : String
  acquiredAt : Nat
deriving Repr, DecidableEq

/-- The in-memory lock table. -/
abbrev LockState := List LockEntry

/-- Modelled from the spec: `beginClose(id, reason)` acquires a lock under
the given key at the given time. -/
def beginClose (st : LockState) (key reason : String) (now : Nat) : LockState :=
  ⟨key, reason, now⟩ :: st

/-- Modelled from the spec: `completeClose(id)` releases every lock held
under the key. -/
def completeClose (st : LockState) (key : String) : LockState :=
  st.filter (fun e => decide (e.key ≠ key))

/-- Modelled from the spec: `isClosing(id)` — a close-intent lock is held
under the key. -/
def isClosing (st : LockState) (key : String) : Bool :=
  st.any (fun e => decide (e.key = key))

/-- Modelled from the spec: `isLocked(id)` — some lock is held under the
key (in this model, coincides with `isClosing`; the source distinguishes
the two predicates only by the reason recorded). -/
def isLocked (st : LockState) (key : String) : Bool :=
  st.any (fun e => decide (e.key = key))

/-- Modelled from the spec: the periodic sweep releases locks older than
the timeout threshold. -/
def sweepLocks (st : LockState) (now timeout : Nat) : LockState :=
  st.filter (fun e => decide (now < e.acquiredAt + timeout))

/-- Lifecycle operations that may run between a `beginClose` and the
corresponding `completeClose`. -/
inductive LockOp
  | beginOp (key reason : String) (time : Nat)
  | completeOp (key : String)
  | sweepOp (now : Nat)
deriving Repr, DecidableEq

/-- Apply one lifecycle operation. -/
def applyLockOp (timeout : Nat) (st : LockState) : LockOp → LockState
  | .beginOp k r t => beginClose st k r t
  | .completeOp k => completeClose st k
  | .sweepOp now => sweepLocks st now timeout

/-- Apply a sequence of lifecycle operations. -/
def applyLockOps (timeout : Nat) (st : LockState) (ops : List LockOp) : LockState :=
  ops.foldl (applyLockOp timeout) st

/-- The `onPaneRemoved` handler (DmuxApp.tsx, in src): when the pane is
closing or locked, return without touching the tracked collection and
without saving; otherwise drop the record and save. The second component
records whether `savePanes` (a state-file write) ran. -/
def onPaneRemoved (locks : LockState) (panes : List DmuxPaneRec)
    (paneId : String) : List DmuxPaneRec × Bool :=
  if isClosing locks paneId || isLocked locks paneId then (panes, false)
  else (panes.filter (fun p => decide (p.id ≠ paneId)), true)

/-- Split a character list on a separator character (the char-level core of
`String.split`). -/
def splitChar (sep : Char) : List Char → List (List Char)
  | [] => [[]]
  | c :: rest =>
    let r := splitChar sep rest
    if c = sep then [] :: r
    else
      match r with
      | [] => [[c]]
      | h :: t => (c :: h) :: t

/-- POSIX `path.basename`: last non-empty path segment (trailing slashes
ignored), empty for the root or the empty string. -/
def posixBasename (p : String) : String :=
  match ((splitChar '/' p.data).filter (fun s => !s.isEmpty)).getLast? with
  | some l => String.mk l
  | none => ""

/-- `String.startsWith` at the character level. -/
def isPrefixOfChars : List Char → List Char → Bool
  | [], _ => true
  | _ :: _, [] => false
  | a :: as, b :: bs => if a = b then isPrefixOfChars as bs else false

/-- Parse the digits of an all-digit string (JavaScript `parseInt(s, 10)`
on a `/^\d+$/` match). -/
def digitsToNat (l : List Char) : Nat :=
  l.foldl (fun acc c => acc * 10 + (c.toNat - 48)) 0

/-- The per-slug step of `generateSiblingSlugForTargetPane`'s loop: the
numeric suffix of `slug` after the sibling prefix, when `slug` is the
prefix followed by one or more digits. -/
def numericSuffix (pref slug : String) : Option Nat :=
  if isPrefixOfChars pref.data slug.data then
    let sfx := slug.data.drop pref.data.length
    if !sfx.isEmpty && sfx.all Char.isDigit then some (digitsToNat sfx)
    else none
  else none

/-- The `maxSibling` accumulator of `generateSiblingSlugForTargetPane`:
the maximum numeric sibling suffix among the existing slugs, floored at
1. -/
def maxSiblingOf (pref : String) (slugs : List String) : Nat :=
  slugs.foldl
    (fun m s =>
      match numericSuffix pref s with
      | some n => max m n
      | none => m) 1

/-- `generateSiblingSlugForTargetPane` (utils/attachAgent.ts): anchor the
base slug to the basename of the target pane's `worktreePath` (falling back
to the pane's own slug when absent or empty) and return
`base ++ "-a" ++ (maxSibling + 1)`. -/
def generateSiblingSlugForTargetPane (slug : String) (worktreePath : Option String)
    (existingSlugs : List String) : String :=
  let worktreeSlug :=
    match worktreePath with
    | some p => posixBasename p
    | none => ""
  let baseSlug := if worktreeSlug = "" then slug else worktreeSlug
  baseSlug ++ "-a" ++ toString (maxSiblingOf (baseSlug ++ "-a") existingSlugs + 1)

/-! ## Lemmas and theorems -/

/-! ## Theorems about the layout calculator -/

lemma sum_range_add_ite (cols rem q : Nat) :
    ((List.range cols).map (fun i => q + if i < rem then 1 else 0)).sum =
      cols * q + min rem cols := by
  induction cols with
  | zero => simp
  | succ k ih =>
    rw [List.range_succ, List.map_append, List.sum_append, ih]
    simp only [List.map_cons, List.map_nil, List.sum_cons, List.sum_nil, Nat.succ_mul]
    by_cases h : k < rem
    · rw [if_pos h]
      omega
    · rw [if_neg h]
      omega

/-- C7: for every `n ≥ 0` and `cols ≥ 1`, `distributePanes n cols` has exactly
`cols` entries summing to exactly `n`, no two entries differ by more than 1,
the extra panes go to the first `n % cols` columns, and in particular
`distributePanes 5 3 = [2, 2, 1]`. -/
theorem distributePanes_spec (n cols : Nat) (hcols : 1 ≤ cols) :
    (distributePanes n cols).length = cols ∧
    (distributePanes n cols).sum = n ∧
    (∀ a ∈ distributePanes n cols, ∀ b ∈ distributePanes n cols, a ≤ b + 1) ∧
    (∀ i, i < cols →
      (distributePanes n cols).getD i 0 =
        n / cols + if i < n % cols then 1 else 0) ∧
    distributePanes 5 3 = [2, 2, 1] := by
  refine ⟨by simp [distributePanes], ?_, ?_, ?_, by decide⟩
  · rw [distributePanes, sum_range_add_ite]
    have hlt : n % cols < cols := Nat.mod_lt _ (by omega)
    have hdm := Nat.div_add_mod n cols
    omega
  · intro a ha b hb
    simp only [distributePanes, List.mem_map, List.mem_range] at ha hb
    obtain ⟨i, _, hi⟩ := ha
    obtain ⟨j, _, hj⟩ := hb
    by_cases h1 : i < n % cols <;> by_cases h2 : j < n % cols <;>
      simp [h1, h2] at hi hj <;> omega
  · intro i hi
    simp [distributePanes, List.getD, List.getElem?_map, List.getElem?_range, hi]

/-- Witness for C7 at the concrete input `n = 5`, `cols = 3`. -/
theorem distributePanes_spec_witness :
    (distributePanes 5 3).length = 3 ∧
    (distributePanes 5 3).sum = 5 ∧
    (∀ a ∈ distributePanes 5 3, ∀ b ∈ distributePanes 5 3, a ≤ b + 1) ∧
    (∀ i, i < 3 →
      (distributePanes 5 3).getD i 0 =
        5 / 3 + if i < 5 % 3 then 1 else 0) ∧
    distributePanes 5 3 = [2, 2, 1] :=
  distributePanes_spec 5 3 (by decide)

lemma jsCeilDiv_pos (n cols : Nat) (hn : 1 ≤ n) (hc : 1 ≤ cols) :
    1 ≤ jsCeilDiv n cols := by
  unfold jsCeilDiv
  rw [Nat.le_div_iff_mul_le (by omega)]
  omega

lemma evalCandidate_some_shape (cfg : LayoutConfig) (n : Nat) (W H : Int)
    (c : Nat) (p : LayoutConfiguration × Rat)
    (hE : evalCandidate cfg n W H c = some p) :
    p.1.cols = c ∧ p.1.rows = jsCeilDiv n c := by
  unfold evalCandidate at hE
  dsimp only at hE
  split at hE
  · cases hE
    exact ⟨rfl, rfl⟩
  · cases hE

lemma layoutLoop_some_shape (cfg : LayoutConfig) (n : Nat) (W H : Int)
    (hn : 1 ≤ n) :
    ∀ (k : Nat) (score : Rat) (best : Option LayoutConfiguration),
      (∀ b, best = some b → 1 ≤ b.cols ∧ 1 ≤ b.rows) →
      ∀ b, layoutLoop cfg n W H k score best = some b → 1 ≤ b.cols ∧ 1 ≤ b.rows := by
  intro k
  induction k with
  | zero =>
    intro score best hbest b hb
    exact hbest b hb
  | succ k ih =>
    intro score best hbest b hb
    rw [layoutLoop] at hb
    cases hE : evalCandidate cfg n W H (k + 1) with
    | none =>
      rw [hE] at hb
      exact ih score best hbest b hb
    | some p =>
      rw [hE] at hb
      obtain ⟨hc, hr⟩ := evalCandidate_some_shape cfg n W H (k + 1) p hE
      have hshape : 1 ≤ p.1.cols ∧ 1 ≤ p.1.rows := by
        rw [hc, hr]
        exact ⟨by omega, jsCeilDiv_pos n (k + 1) hn (by omega)⟩
      have hb' : (if (decide (p.2 > score) ||
          (decide (p.2 = score) && ltColsOrInfinity (k + 1) best)) = true
          then layoutLoop cfg n W H k p.2 (some p.1)
          else layoutLoop cfg n W H k score best) = some b := by
        obtain ⟨l, s⟩ := p
        exact hb
      split at hb'
      · exact ih p.2 (some p.1) (fun c hc => by cases hc; exact hshape) b hb'
      · exact ih score best hbest b hb'

lemma layoutLoop_none_of_all_none (cfg : LayoutConfig) (n : Nat) (W H : Int) :
    ∀ (k : Nat) (score : Rat),
      (∀ c, 1 ≤ c → c ≤ k → evalCandidate cfg n W H c = none) →
      layoutLoop cfg n W H k score none = none := by
  intro k
  induction k with
  | zero =>
    intro score _
    rfl
  | succ k ih =>
    intro score hall
    rw [layoutLoop, hall (k + 1) (by omega) (le_refl _)]
    exact ih score (fun c h1 h2 => hall c h1 (by omega))

/-- C2: for every `paneCount ≥ 1` and positive terminal dimensions, under any
layout configuration, `calculateOptimalLayout` returns a layout with
`cols ≥ 1` and `rows ≥ 1`; and when no candidate column count passes the
feasibility filter it returns the single-column fallback with `cols = 1` and
`rows = paneCount` (the embedding is a total function, so no exception is
possible). -/
theorem calculateOptimalLayout_safe (cfg : LayoutConfig) (n : Nat) (W H : Int)
    (hn : 1 ≤ n) (hW : 0 < W) (hH : 0 < H) :
    1 ≤ (calculateOptimalLayout cfg n W H).cols ∧
    1 ≤ (calculateOptimalLayout cfg n W H).rows ∧
    ((∀ c, 1 ≤ c → c ≤ n → evalCandidate cfg n W H c = none) →
      (calculateOptimalLayout cfg n W H).cols = 1 ∧
      (calculateOptimalLayout cfg n W H).rows = n) := by
  unfold calculateOptimalLayout
  rw [if_neg (by omega)]
  cases hL : layoutLoop cfg n W H n (-1) none with
  | none =>
    refine ⟨le_refl 1, hn, fun _ => ⟨rfl, rfl⟩⟩
  | some b =>
    have hshape := layoutLoop_some_shape cfg n W H hn n (-1) none
      (fun c hc => by cases hc) b hL
    refine ⟨hshape.1, hshape.2, fun hall => ?_⟩
    rw [layoutLoop_none_of_all_none cfg n W H n (-1) hall] at hL
    cases hL

/-- Witness for C2 at `paneCount = 2`, terminal `200 x 50`, tmux constants. -/
theorem calculateOptimalLayout_safe_witness :
    1 ≤ (calculateOptimalLayout tmuxLayoutConfig 2 200 50).cols ∧
    1 ≤ (calculateOptimalLayout tmuxLayoutConfig 2 200 50).rows ∧
    ((∀ c, 1 ≤ c → c ≤ 2 → evalCandidate tmuxLayoutConfig 2 200 50 c = none) →
      (calculateOptimalLayout tmuxLayoutConfig 2 200 50).cols = 1 ∧
      (calculateOptimalLayout tmuxLayoutConfig 2 200 50).rows = 2) :=
  calculateOptimalLayout_safe tmuxLayoutConfig 2 200 50 (by decide) (by decide) (by decide)

/-- C6 counterexample: at 3 panes, terminal `119 x 40`, min width 60,
max width 100, min height 15, sidebar 40, the result is NOT 2 columns by
2 rows. -/
theorem calculateOptimalLayout_3_119_40_not_2x2 :
    ¬((calculateOptimalLayout tmuxLayoutConfig 3 119 40).cols = 2 ∧
      (calculateOptimalLayout tmuxLayoutConfig 3 119 40).rows = 2) := by
  decide

/-- C6 amended: `calculateOptimalLayout` with 3 panes, terminal `119 x 40`,
min width 60, max width 100, min height 15 and the 40-character sidebar
returns the single-column fallback: 1 column, 3 rows (no candidate passes
the feasibility filter: 2 columns need width 161 > 119, 1 column needs
height 47 > 40). -/
theorem calculateOptimalLayout_3_119_40_fallback :
    calculateOptimalLayout tmuxLayoutConfig 3 119 40 =
      ⟨1, 3, 119, [3], 79⟩ := by
  decide

lemma hexDigitChar_isLowerHex (m : Nat) : isLowerHexDigit (hexDigitChar m) = true := by
  unfold hexDigitChar
  split <;> decide

lemma checksumAcc_lt (l : List Char) :
    ∀ c, c < 65536 → l.foldl (fun c ch => jsChecksumStep c ch.toNat) c < 65536 := by
  induction l with
  | nil => intro c hc; exact hc
  | cons ch rest ih =>
    intro c hc
    exact ih _ (Nat.mod_lt _ (by omega))

lemma toHexChars_mem (n : Nat) : ∀ c ∈ toHexChars n, isLowerHexDigit c = true := by
  induction n using Nat.strong_induction_on with
  | _ n ih =>
    rw [toHexChars]
    split
    · intro c hc
      rw [List.mem_singleton] at hc
      subst hc
      exact hexDigitChar_isLowerHex n
    · intro c hc
      rw [List.mem_append] at hc
      rcases hc with hc | hc
      · exact ih (n / 16) (Nat.div_lt_self (by omega) (by omega)) c hc
      · rw [List.mem_singleton] at hc
        subst hc
        exact hexDigitChar_isLowerHex (n % 16)

lemma toHexChars_length_le (k : Nat) :
    ∀ n, n < 16 ^ (k + 1) → (toHexChars n).length ≤ k + 1 := by
  induction k with
  | zero =>
    intro n h
    rw [toHexChars, if_pos (by simpa using h)]
    simp
  | succ k ih =>
    intro n h
    rw [toHexChars]
    split
    · simp
    · rw [List.length_append, List.length_singleton]
      have hdiv : n / 16 < 16 ^ (k + 1) := by
        rw [Nat.div_lt_iff_lt_mul (by omega)]
        calc n < 16 ^ (k + 2) := h
        _ = 16 ^ (k + 1) * 16 := by ring
      have := ih (n / 16) hdiv
      omega

lemma padStart_four (s : String) (h : s.length ≤ 4) :
    (padStart s 4 '0').length = 4 ∧
    ∀ c ∈ (padStart s 4 '0').data, c = '0' ∨ c ∈ s.data := by
  unfold padStart
  split
  · rename_i h2
    exact ⟨by omega, fun c hc => Or.inr hc⟩
  · rename_i h2
    constructor
    · have heq : String.mk (List.replicate (4 - s.length) '0') ++ s =
          String.mk (List.replicate (4 - s.length) '0' ++ s.data) := rfl
      show (String.mk (List.replicate (4 - s.length) '0') ++ s).length = 4
      rw [heq, String.mk_length, List.length_append, List.length_replicate]
      have hsd : s.length = s.data.length := rfl
      omega
    · intro c hc
      have : c ∈ List.replicate (4 - s.length) '0' ++ s.data := hc
      rw [List.mem_append] at this
      rcases this with hc' | hc'
      · exact Or.inl (List.eq_of_mem_replicate hc')
      · exact Or.inr hc'

lemma calculateLayoutChecksum_spec (s : String) :
    (calculateLayoutChecksum s).length = 4 ∧
    ∀ c ∈ (calculateLayoutChecksum s).data, isLowerHexDigit c = true := by
  unfold calculateLayoutChecksum
  have hlt : s.data.foldl (fun c ch => jsChecksumStep c ch.toNat) 0 < 65536 :=
    checksumAcc_lt s.data 0 (by omega)
  set v := s.data.foldl (fun c ch => jsChecksumStep c ch.toNat) 0 with hv
  have hlen : (String.mk (toHexChars v)).length ≤ 4 := by
    show (toHexChars v).length ≤ 4
    exact toHexChars_length_le 3 v (by omega)
  obtain ⟨hl, hmem⟩ := padStart_four (String.mk (toHexChars v)) hlen
  refine ⟨hl, fun c hc => ?_⟩
  rcases hmem c hc with h0 | hin
  · subst h0; decide
  · exact toHexChars_mem v c hin

lemma rowCellWidths_ne_nil (cw mw : Int) (sp : Bool) (len : Nat) (h : 1 ≤ len) :
    rowCellWidths cw mw sp len ≠ [] := by
  unfold rowCellWidths
  split
  · simp
  · rw [if_neg (by omega)]
    simp

lemma buildRowCells_ne_nil (rh cy : Int) (cells : List (String × Int)) (x : Int)
    (h : cells ≠ []) : buildRowCells rh cy cells x ≠ [] := by
  cases cells with
  | nil => exact absurd rfl h
  | cons c rest =>
    obtain ⟨pid, w⟩ := c
    simp [buildRowCells]

lemma entryChain_ne_nil (rp : List String) (big single : String) (h : rp ≠ []) :
    (if 1 < rp.length then [big]
     else if rp.length = 1 then [single]
     else ([] : List String)) ≠ [] := by
  have hl := List.length_pos.mpr h
  split
  · simp
  · split
    · simp
    · exfalso
      rename_i h1 h2
      omega

lemma buildGridRows_cons_ne_nil (contentPanes : List String) (cols : Nat)
    (contentWidth contentStartX paneHeight windowHeight maxComfortableWidth : Int)
    (lastPaneIsSpacer : Bool) (rowsLeft paneIndex : Nat) (currentY : Int)
    (hpanes : (contentPanes.drop paneIndex).take cols ≠ []) :
    buildGridRows contentPanes cols contentWidth contentStartX paneHeight windowHeight
      maxComfortableWidth lastPaneIsSpacer (rowsLeft + 1) paneIndex currentY ≠ [] := by
  rw [buildGridRows]
  intro hcontra
  rw [List.append_eq_nil] at hcontra
  refine entryChain_ne_nil _ _ _ ?_ hcontra.1
  refine buildRowCells_ne_nil _ _ _ _ ?_
  intro hz
  rcases List.zip_eq_nil_iff.mp hz with hz' | hz'
  · exact hpanes hz'
  · exact rowCellWidths_ne_nil _ _ _ _ (List.length_pos.mpr hpanes) hz'

lemma generateSidebarGridLayoutBody_isSome (controlPaneId : String)
    (contentPanes : List String) (sidebarWidth windowWidth windowHeight : Int)
    (columns : Nat) (maxComfortableWidth : Int) (lastPaneIsSpacer : Bool)
    (hne : contentPanes ≠ []) (hcols : 1 ≤ columns) :
    ∃ body, generateSidebarGridLayoutBody controlPaneId contentPanes sidebarWidth
      windowWidth windowHeight columns maxComfortableWidth lastPaneIsSpacer = some body := by
  unfold generateSidebarGridLayoutBody
  dsimp only
  have hn : 1 ≤ contentPanes.length := List.length_pos.mpr hne
  have hrows : 1 ≤ jsCeilDiv contentPanes.length columns := jsCeilDiv_pos _ _ hn hcols
  obtain ⟨r, hr⟩ : ∃ r, jsCeilDiv contentPanes.length columns = r + 1 :=
    ⟨jsCeilDiv contentPanes.length columns - 1, by omega⟩
  rw [hr]
  have hne2 : (contentPanes.drop 0).take columns ≠ [] := by
    rw [List.drop_zero]
    intro h
    rcases List.take_eq_nil_iff.mp h with h' | h'
    · omega
    · exact hne h'
  split
  · rename_i hg
    exact absurd hg (buildGridRows_cons_ne_nil _ _ _ _ _ _ _ _ _ _ _ hne2)
  · exact ⟨_, rfl⟩
  · exact ⟨_, rfl⟩

/-- C1: for every non-empty list of content pane ids, positive window
dimensions and a positive column count, `generateSidebarGridLayout` returns
`checksum ++ "," ++ body` where `body` is the descriptor body and the
checksum is the rotate-right-add-byte accumulator
`c := (c / 2 + c % 2 * 2^15 + byte) % 2^16` folded over the body starting
from 0, rendered as exactly 4 zero-padded lowercase hexadecimal digits. -/
theorem generateSidebarGridLayout_checksum (controlPaneId : String)
    (contentPanes : List String)
    (sidebarWidth windowWidth windowHeight maxComfortableWidth : Int)
    (columns : Nat) (lastPaneIsSpacer : Bool)
    (hne : contentPanes ≠ []) (hW : 0 < windowWidth) (hH : 0 < windowHeight)
    (hcols : 1 ≤ columns) :
    ∃ body,
      generateSidebarGridLayoutBody controlPaneId contentPanes sidebarWidth windowWidth
        windowHeight columns maxComfortableWidth lastPaneIsSpacer = some body ∧
      generateSidebarGridLayout controlPaneId contentPanes sidebarWidth windowWidth
        windowHeight columns maxComfortableWidth lastPaneIsSpacer =
        padStart (String.mk (toHexChars
          (body.data.foldl (fun c ch => jsChecksumStep c ch.toNat) 0))) 4 '0' ++
          "," ++ body ∧
      (calculateLayoutChecksum body).length = 4 ∧
      ∀ c ∈ (calculateLayoutChecksum body).data, isLowerHexDigit c = true := by
  obtain ⟨body, hbody⟩ := generateSidebarGridLayoutBody_isSome controlPaneId contentPanes
    sidebarWidth windowWidth windowHeight columns maxComfortableWidth lastPaneIsSpacer
    hne hcols
  obtain ⟨hlen, hhex⟩ := calculateLayoutChecksum_spec body
  refine ⟨body, hbody, ?_, hlen, hhex⟩
  unfold generateSidebarGridLayout
  rw [hbody]
  rfl

/-- Witness for C1 at a concrete invocation: control pane `%0`, panes
`%1 %2 %3`, sidebar 40, window `181 x 40`, 2 columns, max width 100. -/
theorem generateSidebarGridLayout_checksum_witness :
    ∃ body,
      generateSidebarGridLayoutBody "%0" ["%1", "%2", "%3"] 40 181 40 2 100 false =
        some body ∧
      generateSidebarGridLayout "%0" ["%1", "%2", "%3"] 40 181 40 2 100 false =
        padStart (String.mk (toHexChars
          (body.data.foldl (fun c ch => jsChecksumStep c ch.toNat) 0))) 4 '0' ++
          "," ++ body ∧
      (calculateLayoutChecksum body).length = 4 ∧
      ∀ c ∈ (calculateLayoutChecksum body).data, isLowerHexDigit c = true :=
  generateSidebarGridLayout_checksum "%0" ["%1", "%2", "%3"] 40 181 40 100 2 false
    (by decide) (by decide) (by decide) (by decide)

/-- C9 counterexample: at terminal width 0 (a zero/negative dimension,
i.e. the programmer-error class named by the claim), the call returns
normally — there is no rejection surfaced to the caller, refuting
"produces an immediate, loud rejection at the API boundary". -/
theorem recalcEntryValidation_zero_width_no_rejection :
    (recalcEntryValidation "%1" 0 40 false).returnsNormally = true ∧
    (recalcEntryValidation "%1" 0 40 false).proceeded = false := by
  decide

/-- C9 amended: calling the layout pipeline entry point with a zero or
negative terminal dimension does not throw: the call logs a warning (unless
logs are suppressed) and returns early without running the layout pipeline,
so invalid arguments are absorbed like expected failure modes rather than
rejected loudly. -/
theorem recalcEntryValidation_invalid_dims (controlPaneId : String)
    (w h : Int) (suppressLogs : Bool)
    (hcp : controlPaneId ≠ "") (hinv : w ≤ 0 ∨ h ≤ 0) :
    recalcEntryValidation controlPaneId w h suppressLogs =
      ⟨true, !suppressLogs, false⟩ := by
  unfold recalcEntryValidation
  rw [if_neg hcp, if_pos hinv]

/-- Witness for the amended C9 at `controlPaneId = "%1"`, width 0,
height 40, logs not suppressed. -/
theorem recalcEntryValidation_invalid_dims_witness :
    recalcEntryValidation "%1" 0 40 false = ⟨true, !false, false⟩ :=
  recalcEntryValidation_invalid_dims "%1" 0 40 false (by decide) (by decide)

lemma isValidMinPaneWidth_iff (v : Int) :
    isValidMinPaneWidth v = true ↔ 40 ≤ v ∧ v ≤ 300 := by
  simp [isValidMinPaneWidth, MIN_MIN_PANE_WIDTH, MAX_MIN_PANE_WIDTH]

lemma isValidMaxPaneWidth_iff (v : Int) :
    isValidMaxPaneWidth v = true ↔ 40 ≤ v ∧ v ≤ 300 := by
  simp [isValidMaxPaneWidth, MIN_MAX_PANE_WIDTH, MAX_MAX_PANE_WIDTH]

lemma getValidGlobalMinPaneWidth_valid (g : StoredPaneWidths) :
    isValidMinPaneWidth (getValidGlobalMinPaneWidth g) = true := by
  unfold getValidGlobalMinPaneWidth
  cases g.minPaneWidth with
  | none => decide
  | some v =>
    dsimp only
    split
    · assumption
    · decide

lemma getValidGlobalMaxPaneWidth_valid (g : StoredPaneWidths) :
    isValidMaxPaneWidth (getValidGlobalMaxPaneWidth g) = true := by
  unfold getValidGlobalMaxPaneWidth
  cases g.maxPaneWidth with
  | none => decide
  | some v =>
    dsimp only
    split
    · assumption
    · decide

lemma getSettingsPaneWidths_stored (a b : Int) (proj : StoredPaneWidths)
    (ha : isValidMinPaneWidth a = true) (hb : isValidMaxPaneWidth b = true)
    (hab : a ≤ b) :
    getSettingsPaneWidths ⟨⟨some a, some b⟩, proj⟩ = (a, b) := by
  unfold getSettingsPaneWidths resolveGlobalPaneWidths getValidGlobalMinPaneWidth
    getValidGlobalMaxPaneWidth
  dsimp only
  rw [if_pos ha, if_pos hb, if_neg (by omega)]

lemma updateSettingMinPaneWidth_eq (st : SettingsState) (v : Int)
    (scope : SettingsScope) (h : isValidMinPaneWidth v = true) :
    updateSettingMinPaneWidth st v scope =
      ⟨⟨some (min v (getValidGlobalMaxPaneWidth st.globalSettings)),
        some (getValidGlobalMaxPaneWidth st.globalSettings)⟩, ⟨none, none⟩⟩ := by
  unfold updateSettingMinPaneWidth resolveGlobalPaneWidths
  rw [if_pos h]
  dsimp only
  by_cases hvM : v > getValidGlobalMaxPaneWidth st.globalSettings
  · rw [if_pos hvM]
    simp only [Option.isSome_some, Option.isSome_none, Bool.not_false, Bool.and_true,
      if_pos rfl]
    have : min v (getValidGlobalMaxPaneWidth st.globalSettings) =
        getValidGlobalMaxPaneWidth st.globalSettings := by omega
    rw [this]
    simp
  · rw [if_neg hvM]
    have : min v (getValidGlobalMaxPaneWidth st.globalSettings) = v := by omega
    rw [this]

lemma updateSettingMaxPaneWidth_eq (st : SettingsState) (v : Int)
    (scope : SettingsScope) (h : isValidMaxPaneWidth v = true) :
    updateSettingMaxPaneWidth st v scope =
      ⟨⟨some (getValidGlobalMinPaneWidth st.globalSettings),
        some (max (getValidGlobalMinPaneWidth st.globalSettings) v)⟩, ⟨none, none⟩⟩ := by
  unfold updateSettingMaxPaneWidth resolveGlobalPaneWidths
  rw [if_pos h]
  dsimp only
  by_cases hvM : getValidGlobalMinPaneWidth st.globalSettings > v
  · rw [if_pos hvM]
    simp only [Option.isSome_some, Option.isSome_none, Bool.false_and, Bool.not_true,
      if_neg (by decide : ¬((false && !true) = true))]
    have : max (getValidGlobalMinPaneWidth st.globalSettings) v =
        getValidGlobalMinPaneWidth st.globalSettings := by omega
    rw [this]
    simp
  · rw [if_neg hvM]
    have : max (getValidGlobalMinPaneWidth st.globalSettings) v = v := by omega
    rw [this]

/-- C10 amended: after every pane-width operation the effective merged
settings satisfy `minPaneWidth ≤ maxPaneWidth`; when a single-bound update
would violate this, the bound BEING UPDATED is clamped to the bound that was
not updated (updating `min` above `max` stores `min := max`; updating `max`
below `min` stores `max := min`); and the pane-width bounds are stored
exclusively at global scope, with any project-scope values deleted even when
the caller requested project scope. -/
theorem settingsPaneWidths_invariants :
    (∀ st : SettingsState,
      (getSettingsPaneWidths st).1 ≤ (getSettingsPaneWidths st).2) ∧
    (∀ (st : SettingsState) (v : Int) (scope : SettingsScope),
      isValidMinPaneWidth v = true →
      updateSettingMinPaneWidth st v scope =
        ⟨⟨some (min v (getValidGlobalMaxPaneWidth st.globalSettings)),
          some (getValidGlobalMaxPaneWidth st.globalSettings)⟩, ⟨none, none⟩⟩ ∧
      getSettingsPaneWidths (updateSettingMinPaneWidth st v scope) =
        (min v (getValidGlobalMaxPaneWidth st.globalSettings),
          getValidGlobalMaxPaneWidth st.globalSettings)) ∧
    (∀ (st : SettingsState) (v : Int) (scope : SettingsScope),
      isValidMaxPaneWidth v = true →
      updateSettingMaxPaneWidth st v scope =
        ⟨⟨some (getValidGlobalMinPaneWidth st.globalSettings),
          some (max (getValidGlobalMinPaneWidth st.globalSettings) v)⟩, ⟨none, none⟩⟩ ∧
      getSettingsPaneWidths (updateSettingMaxPaneWidth st v scope) =
        (getValidGlobalMinPaneWidth st.globalSettings,
          max (getValidGlobalMinPaneWidth st.globalSettings) v)) ∧
    (∀ (st : SettingsState) (vmin vmax : Option Int) (scope : SettingsScope),
      (match vmin with | some v => isValidMinPaneWidth v | none => true) = true →
      (match vmax with | some v => isValidMaxPaneWidth v | none => true) = true →
      (vmin.isSome || vmax.isSome) = true →
      (updateSettingsPaneWidths st vmin vmax scope).projectSettings = ⟨none, none⟩ ∧
      (updateSettingsPaneWidths st vmin vmax scope).globalSettings.minPaneWidth.isSome
        = true ∧
      (updateSettingsPaneWidths st vmin vmax scope).globalSettings.maxPaneWidth.isSome
        = true) := by
  refine ⟨?_, ?_, ?_, ?_⟩
  · intro st
    unfold getSettingsPaneWidths resolveGlobalPaneWidths
    dsimp only
    split
    · simp
    · rename_i hmM
      dsimp only
      omega
  · intro st v scope h
    have he := updateSettingMinPaneWidth_eq st v scope h
    refine ⟨he, ?_⟩
    rw [he]
    apply getSettingsPaneWidths_stored
    · rw [isValidMinPaneWidth_iff]
      have h1 := (isValidMinPaneWidth_iff v).mp h
      have h2 := (isValidMaxPaneWidth_iff _).mp
        (getValidGlobalMaxPaneWidth_valid st.globalSettings)
      omega
    · exact getValidGlobalMaxPaneWidth_valid st.globalSettings
    · omega
  · intro st v scope h
    have he := updateSettingMaxPaneWidth_eq st v scope h
    refine ⟨he, ?_⟩
    rw [he]
    apply getSettingsPaneWidths_stored
    · exact getValidGlobalMinPaneWidth_valid st.globalSettings
    · rw [isValidMaxPaneWidth_iff]
      have h1 := (isValidMaxPaneWidth_iff v).mp h
      have h2 := (isValidMinPaneWidth_iff _).mp
        (getValidGlobalMinPaneWidth_valid st.globalSettings)
      omega
    · omega
  · intro st vmin vmax scope h1 h2 h3
    unfold updateSettingsPaneWidths
    dsimp only
    rw [h1, h2]
    simp [h3]

/-- Witness for the amended C10: from empty settings stores (defaults
`min = 50`, `max = 80`), updating `minPaneWidth` to 90 at global scope
stores `min = max = 80` and the effective settings are `(80, 80)`. -/
theorem settingsPaneWidths_invariants_witness :
    updateSettingMinPaneWidth ⟨⟨none, none⟩, ⟨none, none⟩⟩ 90 SettingsScope.global =
      ⟨⟨some 80, some 80⟩, ⟨none, none⟩⟩ ∧
    getSettingsPaneWidths (updateSettingMinPaneWidth ⟨⟨none, none⟩, ⟨none, none⟩⟩ 90
      SettingsScope.global) = (80, 80) := by
  have h := settingsPaneWidths_invariants.2.1 ⟨⟨none, none⟩, ⟨none, none⟩⟩ 90
    SettingsScope.global (by decide)
  exact ⟨h.1.trans (by decide), h.2.trans (by decide)⟩

/-- C10 counterexample: from empty settings stores, updating `minPaneWidth`
to 90 (validly in range) makes the effective settings `(80, 80)` — the
UPDATED bound was clamped to the stored `maxPaneWidth` 80; the claim's
prediction, that the non-updated bound is clamped to the updated one
(yielding `(90, 90)`), is false. -/
theorem settingsPaneWidths_clamp_counterexample :
    getSettingsPaneWidths (updateSettingMinPaneWidth ⟨⟨none, none⟩, ⟨none, none⟩⟩ 90
      SettingsScope.global) = (80, 80) ∧
    ¬ getSettingsPaneWidths (updateSettingMinPaneWidth ⟨⟨none, none⟩, ⟨none, none⟩⟩ 90
      SettingsScope.global) = (90, 90) := by
  decide

lemma memB_eq_true_iff (s : String) (l : List String) :
    memB s l = true ↔ s ∈ l := by
  induction l with
  | nil => simp [memB]
  | cons t rest ih =>
    simp only [memB, List.mem_cons]
    by_cases h : s = t
    · simp [h]
    · simp [h, ih]

lemma memB_append (s : String) (a b : List String) :
    memB s (a ++ b) = (memB s a || memB s b) := by
  induction a with
  | nil => simp [memB]
  | cons t rest ih =>
    simp only [List.cons_append, memB]
    by_cases h : s = t
    · simp [h]
    · simp [h, ih]

lemma rebindAndFilterPanes_all_live (loaded : List DmuxPaneRec)
    (t2i : List (String × String)) (ids : List String)
    (h : ∀ p ∈ loaded, memB p.paneId ids = true) :
    rebindAndFilterPanes loaded t2i ids = ⟨loaded, false, []⟩ := by
  induction loaded with
  | nil => rfl
  | cons p rest ih =>
    have hp := h p (List.mem_cons_self p rest)
    rw [rebindAndFilterPanes]
    rw [ih (fun q hq => h q (List.mem_cons_of_mem p hq))]
    dsimp only
    rw [rebindPaneByTitle, if_pos hp, if_pos hp]

lemma detectAndAddShellPanes_none (panes : List DmuxPaneRec)
    (live : List LivePane) (cp : String)
    (h : ∀ lp ∈ live, lp.paneId = cp ∨ lp.title = "dmux-spacer" ∨
      memB lp.paneId (panes.map (·.paneId)) = true) :
    detectAndAddShellPanes panes live cp = (panes, false) := by
  unfold detectAndAddShellPanes
  have hfilter : live.filter (fun lp =>
      !memB lp.paneId (panes.map (·.paneId)) && decide (lp.paneId ≠ cp) &&
        decide (lp.title ≠ "dmux-spacer")) = [] := by
    rw [List.filter_eq_nil]
    intro lp hlp
    rcases h lp hlp with h1 | h1 | h1
    · simp [h1]
    · simp [h1]
    · simp [h1]
  dsimp only
  rw [hfilter]
  simp

lemma idsChangedCheck_refl (l : List DmuxPaneRec) : idsChangedCheck l l = false := by
  induction l with
  | nil => rfl
  | cons p rest ih => simp [idsChangedCheck, ih]

/-- A reconciliation pass over a consistent state is a no-op: the records
come back unchanged, nothing is created, no flags are raised, and the state
file is not written. -/
lemma loadPanesPass_noop (prev loaded : List DmuxPaneRec) (view : TmuxView)
    (cp : String) (fresh : Nat → String)
    (h : consistentView loaded view cp) :
    loadPanesPass prev loaded view cp fresh =
      ⟨loaded, [], false, false, false, false, view⟩ := by
  obtain ⟨h1, h2⟩ := h
  unfold loadPanesPass
  dsimp only
  rw [rebindAndFilterPanes_all_live loaded (titleToId view) (allPaneIds view) h1]
  dsimp only
  simp only [List.isEmpty_nil, if_true, ite_true, if_pos]
  rw [detectAndAddShellPanes_none loaded view.live cp h2]
  dsimp only
  rw [idsChangedCheck_refl]
  simp

lemma memB_of_mem {s : String} {l : List String} (h : s ∈ l) : memB s l = true :=
  (memB_eq_true_iff s l).mpr h

lemma memB_cons_of (s t : String) (l : List String) (h : memB s l = true) :
    memB s (t :: l) = true := by
  rw [memB]
  split <;> simp [h]

lemma map_id_of {α : Type} (f : α → α) (l : List α) (h : ∀ x ∈ l, f x = x) :
    l.map f = l := by
  induction l with
  | nil => rfl
  | cons x rest ih =>
    rw [List.map_cons, h x (List.mem_cons_self x rest),
      ih (fun y hy => h y (List.mem_cons_of_mem x hy))]

lemma lookupTitle_titleToId (live : List LivePane) (s i : String)
    (h : lookupTitle (live.map (fun lp => (lp.title, lp.paneId))) s = some i) :
    memB i (live.map (·.paneId)) = true := by
  induction live with
  | nil => cases h
  | cons lp rest ih =>
    rw [List.map_cons, lookupTitle] at h
    rw [List.map_cons]
    split at h
    · cases h
      rw [memB, if_pos rfl]
    · exact memB_cons_of _ _ _ (ih h)

lemma kind_not_shell {k : PaneKind} (h : ¬k = PaneKind.shell) :
    k = PaneKind.worktree := by
  cases k
  · rfl
  · exact absurd rfl h

lemma rebindAndFilterPanes_active_shape (loaded : List DmuxPaneRec)
    (t2i : List (String × String)) (ids : List String) :
    ∀ q ∈ (rebindAndFilterPanes loaded t2i ids).activePanes,
      memB q.paneId ids = true ∨
        (memB q.paneId ids = false ∧ q.kind = PaneKind.worktree ∧
          q ∈ (rebindAndFilterPanes loaded t2i ids).worktreePanesToRecreate) := by
  induction loaded with
  | nil => intro q hq; cases hq
  | cons p rest ih =>
    intro q hq
    rw [rebindAndFilterPanes] at hq ⊢
    by_cases halive : memB (rebindPaneByTitle p t2i ids).paneId ids = true
    · rw [if_pos halive] at hq ⊢
      dsimp only at hq ⊢
      rcases List.mem_cons.mp hq with hq' | hq'
      · subst hq'
        exact Or.inl halive
      · rcases ih q hq' with h | ⟨h1, h2, h3⟩
        · exact Or.inl h
        · exact Or.inr ⟨h1, h2, h3⟩
    · rw [if_neg halive] at hq ⊢
      by_cases hkind : (rebindPaneByTitle p t2i ids).kind = PaneKind.shell
      · rw [if_pos hkind] at hq ⊢
        dsimp only at hq ⊢
        rcases ih q hq with h | ⟨h1, h2, h3⟩
        · exact Or.inl h
        · exact Or.inr ⟨h1, h2, h3⟩
      · rw [if_neg hkind] at hq ⊢
        dsimp only at hq ⊢
        rcases List.mem_cons.mp hq with hq' | hq'
        · subst hq'
          exact Or.inr ⟨by simpa using halive, kind_not_shell hkind, List.mem_cons_self _ _⟩
        · rcases ih q hq' with h | ⟨h1, h2, h3⟩
          · exact Or.inl h
          · exact Or.inr ⟨h1, h2, List.mem_cons_of_mem _ h3⟩

lemma recreate_out_ids (fresh : Nat → String) (ids : List String)
    (panes : List DmuxPaneRec)
    (h : ∀ p ∈ panes, memB p.paneId ids = true ∨ p.kind = PaneKind.worktree) :
    ∀ k, ∀ q ∈ (recreateKilledWorktreePanes fresh ids panes k).1,
      memB q.paneId ids = true ∨
        memB q.paneId
          ((recreateKilledWorktreePanes fresh ids panes k).2.map (·.paneId)) = true := by
  induction panes with
  | nil => intro k q hq; cases hq
  | cons p rest ih =>
    intro k q hq
    rw [recreateKilledWorktreePanes] at hq ⊢
    by_cases hcond : (!memB p.paneId ids && decide (p.kind = PaneKind.worktree)) = true
    · rw [if_pos hcond] at hq ⊢
      dsimp only at hq ⊢
      rcases List.mem_cons.mp hq with hq' | hq'
      · subst hq'
        refine Or.inr ?_
        rw [List.map_cons, memB, if_pos rfl]
      · rcases ih (fun r hr => h r (List.mem_cons_of_mem p hr)) (k + 1) q hq' with h1 | h1
        · exact Or.inl h1
        · exact Or.inr (by rw [List.map_cons]; exact memB_cons_of _ _ _ h1)
    · rw [if_neg hcond] at hq ⊢
      dsimp only at hq ⊢
      rcases List.mem_cons.mp hq with hq' | hq'
      · subst hq'
        rcases h q (List.mem_cons_self q rest) with h1 | h1
        · exact Or.inl h1
        · left
          by_contra hmem
          apply hcond
          simp only [Bool.and_eq_true, Bool.not_eq_true', decide_eq_true_eq]
          exact ⟨Bool.eq_false_iff.mpr (fun hc => hmem hc), h1⟩
      · exact ih (fun r hr => h r (List.mem_cons_of_mem p hr)) k q hq'

lemma recreate_created_sub (fresh : Nat → String) (ids : List String)
    (panes : List DmuxPaneRec) :
    ∀ k, ∀ c ∈ (recreateKilledWorktreePanes fresh ids panes k).2,
      memB c.paneId
        ((recreateKilledWorktreePanes fresh ids panes k).1.map (·.paneId)) = true := by
  induction panes with
  | nil => intro k c hc; cases hc
  | cons p rest ih =>
    intro k c hc
    rw [recreateKilledWorktreePanes] at hc ⊢
    by_cases hcond : (!memB p.paneId ids && decide (p.kind = PaneKind.worktree)) = true
    · rw [if_pos hcond] at hc ⊢
      dsimp only at hc ⊢
      rcases List.mem_cons.mp hc with hc' | hc'
      · subst hc'
        rw [List.map_cons, memB, if_pos rfl]
      · rw [List.map_cons]
        exact memB_cons_of _ _ _ (ih (k + 1) c hc')
    · rw [if_neg hcond] at hc ⊢
      dsimp only at hc ⊢
      rw [List.map_cons]
      exact memB_cons_of _ _ _ (ih k c hc)

lemma recreate_created_fresh (fresh : Nat → String) (ids : List String)
    (panes : List DmuxPaneRec) :
    ∀ k, ∀ c ∈ (recreateKilledWorktreePanes fresh ids panes k).2,
      ∃ j, c.paneId = fresh j := by
  induction panes with
  | nil => intro k c hc; cases hc
  | cons p rest ih =>
    intro k c hc
    rw [recreateKilledWorktreePanes] at hc
    by_cases hcond : (!memB p.paneId ids && decide (p.kind = PaneKind.worktree)) = true
    · rw [if_pos hcond] at hc
      dsimp only at hc
      rcases List.mem_cons.mp hc with hc' | hc'
      · subst hc'
        exact ⟨k, rfl⟩
      · exact ih (k + 1) c hc'
    · rw [if_neg hcond] at hc
      dsimp only at hc
      exact ih k c hc

lemma recreate_keeps_alive (fresh : Nat → String) (ids : List String)
    (panes : List DmuxPaneRec) :
    ∀ k, ∀ q ∈ panes, memB q.paneId ids = true →
      q ∈ (recreateKilledWorktreePanes fresh ids panes k).1 := by
  induction panes with
  | nil => intro k q hq; cases hq
  | cons p rest ih =>
    intro k q hq halive
    rw [recreateKilledWorktreePanes]
    by_cases hcond : (!memB p.paneId ids && decide (p.kind = PaneKind.worktree)) = true
    · rw [if_pos hcond]
      dsimp only
      rcases List.mem_cons.mp hq with hq' | hq'
      · subst hq'
        exfalso
        simp only [Bool.and_eq_true, Bool.not_eq_true'] at hcond
        rw [halive] at hcond
        exact absurd hcond.1 (by decide)
      · exact List.mem_cons_of_mem _ (ih (k + 1) q hq' halive)
    · rw [if_neg hcond]
      dsimp only
      rcases List.mem_cons.mp hq with hq' | hq'
      · subst hq'
        exact List.mem_cons_self _ _
      · exact List.mem_cons_of_mem _ (ih k q hq' halive)

lemma recreate_recreates (fresh : Nat → String) (ids : List String)
    (panes : List DmuxPaneRec) :
    ∀ k, ∀ p ∈ panes, memB p.paneId ids = false → p.kind = PaneKind.worktree →
      ∃ nid, (∃ j, nid = fresh j) ∧
        { p with paneId := nid } ∈ (recreateKilledWorktreePanes fresh ids panes k).1 ∧
        CreatedPane.mk nid (p.worktreePath.getD "") p.slug ∈
          (recreateKilledWorktreePanes fresh ids panes k).2 := by
  induction panes with
  | nil => intro k p hp; cases hp
  | cons q rest ih =>
    intro k p hp hdead hkind
    rw [recreateKilledWorktreePanes]
    by_cases hcond : (!memB q.paneId ids && decide (q.kind = PaneKind.worktree)) = true
    · rw [if_pos hcond]
      dsimp only
      rcases List.mem_cons.mp hp with hp' | hp'
      · subst hp'
        exact ⟨fresh k, ⟨k, rfl⟩, List.mem_cons_self _ _, List.mem_cons_self _ _⟩
      · obtain ⟨nid, hj, h1, h2⟩ := ih (k + 1) p hp' hdead hkind
        exact ⟨nid, hj, List.mem_cons_of_mem _ h1, List.mem_cons_of_mem _ h2⟩
    · rw [if_neg hcond]
      dsimp only
      rcases List.mem_cons.mp hp with hp' | hp'
      · subst hp'
        exfalso
        apply hcond
        simp only [Bool.and_eq_true, Bool.not_eq_true', decide_eq_true_eq]
        exact ⟨hdead, hkind⟩
      · obtain ⟨nid, hj, h1, h2⟩ := ih k p hp' hdead hkind
        exact ⟨nid, hj, List.mem_cons_of_mem _ h1, h2⟩

lemma detect_mem_left (panes : List DmuxPaneRec) (live : List LivePane)
    (cp : String) (q : DmuxPaneRec) (h : q ∈ panes) :
    q ∈ (detectAndAddShellPanes panes live cp).1 := by
  unfold detectAndAddShellPanes
  exact List.mem_append_left _ h

lemma detect_mem_cases (panes : List DmuxPaneRec) (live : List LivePane)
    (cp : String) (q : DmuxPaneRec)
    (h : q ∈ (detectAndAddShellPanes panes live cp).1) :
    q ∈ panes ∨ ∃ lp ∈ live, q.paneId = lp.paneId := by
  unfold detectAndAddShellPanes at h
  dsimp only at h
  rcases List.mem_append.mp h with h' | h'
  · exact Or.inl h'
  · obtain ⟨lp, hlp, hq⟩ := List.mem_map.mp h'
    refine Or.inr ⟨lp, (List.mem_filter.mp hlp).1, ?_⟩
    rw [← hq]

lemma detect_tracked_or_adopted (panes : List DmuxPaneRec) (live : List LivePane)
    (cp : String) :
    ∀ lp ∈ live, lp.paneId = cp ∨ lp.title = "dmux-spacer" ∨
      memB lp.paneId ((detectAndAddShellPanes panes live cp).1.map (·.paneId)) = true := by
  intro lp hlp
  unfold detectAndAddShellPanes
  dsimp only
  by_cases hm : memB lp.paneId (panes.map (·.paneId)) = true
  · refine Or.inr (Or.inr ?_)
    rw [List.map_append, memB_append, hm, Bool.true_or]
  · by_cases hcp : lp.paneId = cp
    · exact Or.inl hcp
    · by_cases hsp : lp.title = "dmux-spacer"
      · exact Or.inr (Or.inl hsp)
      · refine Or.inr (Or.inr ?_)
        have hpred : lp ∈ live.filter (fun lp =>
            !memB lp.paneId (panes.map (·.paneId)) && decide (lp.paneId ≠ cp) &&
              decide (lp.title ≠ "dmux-spacer")) := by
          refine List.mem_filter.mpr ⟨hlp, ?_⟩
          simp only [Bool.and_eq_true, Bool.not_eq_true', decide_eq_true_eq]
          exact ⟨⟨Bool.eq_false_iff.mpr (fun hc => hm hc), hcp⟩, hsp⟩
        rw [List.map_append, memB_append, List.map_map]
        have hmem := memB_of_mem (List.mem_map_of_mem
          (fun lp => lp.paneId) hpred)
        rw [Bool.or_eq_true]
        right
        exact hmem

lemma allPaneIds_append_created (view : TmuxView) (created : List CreatedPane) :
    allPaneIds ⟨view.live ++ created.map (fun c => ⟨c.paneId, c.title⟩)⟩ =
      allPaneIds view ++ created.map (·.paneId) := by
  unfold allPaneIds
  rw [List.map_append, List.map_map]
  rfl

/-- Every pass leaves the pane collection consistent with the post-pass tmux
view: tracked ids are live, and live panes are control, spacer, or
tracked. -/
lemma loadPanesPass_establishes (prev loaded : List DmuxPaneRec) (view : TmuxView)
    (cp : String) (fresh : Nat → String) :
    consistentView (loadPanesPass prev loaded view cp fresh).finalPanes
      (loadPanesPass prev loaded view cp fresh).viewAfter cp := by
  by_cases hrec : (rebindAndFilterPanes loaded (titleToId view)
      (allPaneIds view)).worktreePanesToRecreate.isEmpty = true
  · have hfp : (loadPanesPass prev loaded view cp fresh).finalPanes =
        (detectAndAddShellPanes (rebindAndFilterPanes loaded (titleToId view)
          (allPaneIds view)).activePanes view.live cp).1 := by
      unfold loadPanesPass
      dsimp only
      rw [if_pos hrec]
    have hva : (loadPanesPass prev loaded view cp fresh).viewAfter = view := by
      unfold loadPanesPass
      dsimp only
      rw [if_pos hrec]
    rw [hfp, hva]
    constructor
    · intro q hq
      rcases detect_mem_cases _ _ _ q hq with hq' | ⟨lp, hlp, hq'⟩
      · rcases rebindAndFilterPanes_active_shape loaded (titleToId view)
          (allPaneIds view) q hq' with h | ⟨_, _, h3⟩
        · exact h
        · rw [List.isEmpty_iff.mp hrec] at h3
          cases h3
      · rw [hq']
        exact memB_of_mem (List.mem_map_of_mem (fun lp => lp.paneId) hlp)
    · exact detect_tracked_or_adopted _ _ _
  · have hpre : ∀ p ∈ (rebindAndFilterPanes loaded (titleToId view)
        (allPaneIds view)).activePanes,
        memB p.paneId (allPaneIds view) = true ∨ p.kind = PaneKind.worktree := by
      intro p hp
      rcases rebindAndFilterPanes_active_shape loaded (titleToId view)
        (allPaneIds view) p hp with h | ⟨_, h2, _⟩
      · exact Or.inl h
      · exact Or.inr h2
    set r := rebindAndFilterPanes loaded (titleToId view) (allPaneIds view) with hr
    set out := recreateKilledWorktreePanes fresh (allPaneIds view) r.activePanes 0
      with hout
    set view' : TmuxView :=
      ⟨view.live ++ out.2.map (fun c => ⟨c.paneId, c.title⟩)⟩ with hview'
    have hout1ids : ∀ q ∈ out.1, memB q.paneId (allPaneIds view') = true := by
      intro q hq
      have hids' : allPaneIds view' = allPaneIds view ++ out.2.map (·.paneId) :=
        allPaneIds_append_created view out.2
      rw [hids', memB_append, Bool.or_eq_true]
      rcases recreate_out_ids fresh (allPaneIds view) r.activePanes hpre 0 q hq with h | h
      · exact Or.inl h
      · exact Or.inr h
    have hrebound : out.1.map
        (fun p => rebindPaneByTitle p (titleToId view') (allPaneIds view')) = out.1 :=
      map_id_of _ _ (fun q hq => by rw [rebindPaneByTitle, if_pos (hout1ids q hq)])
    have hfp : (loadPanesPass prev loaded view cp fresh).finalPanes =
        (detectAndAddShellPanes out.1 view.live cp).1 := by
      unfold loadPanesPass
      dsimp only
      rw [if_neg hrec]
      dsimp only
      rw [← hr, ← hout, ← hview', hrebound]
    have hva : (loadPanesPass prev loaded view cp fresh).viewAfter = view' := by
      unfold loadPanesPass
      dsimp only
      rw [if_neg hrec]
    rw [hfp, hva]
    constructor
    · intro q hq
      rcases detect_mem_cases _ _ _ q hq with hq' | ⟨lp, hlp, hq'⟩
      · exact hout1ids q hq'
      · rw [hq', hview', allPaneIds_append_created, memB_append, Bool.or_eq_true]
        exact Or.inl (memB_of_mem (List.mem_map_of_mem (fun lp => lp.paneId) hlp))
    · intro lp hlp
      rw [hview'] at hlp
      dsimp only at hlp
      rcases List.mem_append.mp hlp with hlp' | hlp'
      · exact detect_tracked_or_adopted out.1 view.live cp lp hlp'
      · obtain ⟨c, hc, hlpc⟩ := List.mem_map.mp hlp'
        refine Or.inr (Or.inr ?_)
        have hc1 : memB c.paneId (out.1.map (·.paneId)) = true :=
          recreate_created_sub fresh (allPaneIds view) r.activePanes 0 c hc
        have hsub : memB c.paneId
            ((detectAndAddShellPanes out.1 view.live cp).1.map (·.paneId)) = true := by
          unfold detectAndAddShellPanes
          dsimp only
          rw [List.map_append, memB_append, hc1, Bool.true_or]
        rw [← hlpc]
        exact hsub

/-- C3: running the reconciliation pass twice in succession with no
intervening external change produces zero state-file writes on the second
call — the second pass returns the collection unchanged with every change
flag `false` and `wrote = false`; and in general a pass that detects no
pane-id remap, no shell-pane removal and no untracked-pane addition does
not write the state file. -/
theorem loadPanes_second_pass_no_write (prev loaded : List DmuxPaneRec)
    (view : TmuxView) (cp : String) (fresh : Nat → String) :
    loadPanesPass (loadPanesPass prev loaded view cp fresh).finalPanes
      (loadPanesPass prev loaded view cp fresh).finalPanes
      (loadPanesPass prev loaded view cp fresh).viewAfter cp fresh =
      ⟨(loadPanesPass prev loaded view cp fresh).finalPanes, [], false, false, false,
        false, (loadPanesPass prev loaded view cp fresh).viewAfter⟩ ∧
    ((loadPanesPass prev loaded view cp fresh).idsChanged = false →
      (loadPanesPass prev loaded view cp fresh).shellPanesAdded = false →
      (loadPanesPass prev loaded view cp fresh).shellPanesRemoved = false →
      (loadPanesPass prev loaded view cp fresh).wrote = false) := by
  constructor
  · exact loadPanesPass_noop _ _ _ _ _
      (loadPanesPass_establishes prev loaded view cp fresh)
  · intro h1 h2 h3
    have hw : (loadPanesPass prev loaded view cp fresh).wrote =
        ((decide (encodePaneIds prev ≠
            encodePaneIds (loadPanesPass prev loaded view cp fresh).finalPanes) ||
          (loadPanesPass prev loaded view cp fresh).shellPanesAdded ||
          (loadPanesPass prev loaded view cp fresh).shellPanesRemoved) &&
         ((loadPanesPass prev loaded view cp fresh).idsChanged ||
          (loadPanesPass prev loaded view cp fresh).shellPanesAdded ||
          (loadPanesPass prev loaded view cp fresh).shellPanesRemoved)) := rfl
    rw [hw, h1, h2, h3]
    simp

/-- Witness for C3 at a concrete state: empty collection, one live pane (the
control pane), no remap/removal/addition. -/
theorem loadPanes_second_pass_no_write_witness :
    loadPanesPass
      (loadPanesPass [] [] ⟨[⟨"%0", "dmux"⟩]⟩ "%0" (fun k => "%r" ++ toString k)).finalPanes
      (loadPanesPass [] [] ⟨[⟨"%0", "dmux"⟩]⟩ "%0" (fun k => "%r" ++ toString k)).finalPanes
      (loadPanesPass [] [] ⟨[⟨"%0", "dmux"⟩]⟩ "%0" (fun k => "%r" ++ toString k)).viewAfter
      "%0" (fun k => "%r" ++ toString k) =
      ⟨(loadPanesPass [] [] ⟨[⟨"%0", "dmux"⟩]⟩ "%0"
          (fun k => "%r" ++ toString k)).finalPanes, [], false, false, false, false,
        (loadPanesPass [] [] ⟨[⟨"%0", "dmux"⟩]⟩ "%0"
          (fun k => "%r" ++ toString k)).viewAfter⟩ ∧
    (loadPanesPass [] [] ⟨[⟨"%0", "dmux"⟩]⟩ "%0" (fun k => "%r" ++ toString k)).wrote
      = false :=
  ⟨(loadPanes_second_pass_no_write [] [] ⟨[⟨"%0", "dmux"⟩]⟩ "%0"
      (fun k => "%r" ++ toString k)).1,
    (loadPanes_second_pass_no_write [] [] ⟨[⟨"%0", "dmux"⟩]⟩ "%0"
      (fun k => "%r" ++ toString k)).2 (by decide) (by decide) (by decide)⟩

lemma rebind_member_active (loaded : List DmuxPaneRec)
    (t2i : List (String × String)) (ids : List String) (p : DmuxPaneRec)
    (hp : p ∈ loaded)
    (halive : memB (rebindPaneByTitle p t2i ids).paneId ids = true) :
    rebindPaneByTitle p t2i ids ∈ (rebindAndFilterPanes loaded t2i ids).activePanes := by
  induction loaded with
  | nil => cases hp
  | cons q rest ih =>
    rw [rebindAndFilterPanes]
    rcases List.mem_cons.mp hp with h | h
    · subst h
      rw [if_pos halive]
      exact List.mem_cons_self _ _
    · have hmem := ih h
      by_cases h1 : memB (rebindPaneByTitle q t2i ids).paneId ids = true
      · rw [if_pos h1]
        exact List.mem_cons_of_mem _ hmem
      · rw [if_neg h1]
        by_cases h2 : (rebindPaneByTitle q t2i ids).kind = PaneKind.shell
        · rw [if_pos h2]
          exact hmem
        · rw [if_neg h2]
          exact List.mem_cons_of_mem _ hmem

lemma dead_worktree_in_recreate (loaded : List DmuxPaneRec)
    (t2i : List (String × String)) (ids : List String) (p : DmuxPaneRec)
    (hp : p ∈ loaded) (hself : rebindPaneByTitle p t2i ids = p)
    (hdead : memB p.paneId ids = false) (hkind : p.kind = PaneKind.worktree) :
    p ∈ (rebindAndFilterPanes loaded t2i ids).activePanes ∧
      p ∈ (rebindAndFilterPanes loaded t2i ids).worktreePanesToRecreate := by
  induction loaded with
  | nil => cases hp
  | cons q rest ih =>
    rw [rebindAndFilterPanes]
    rcases List.mem_cons.mp hp with h | h
    · subst h
      rw [hself, if_neg (by rw [hdead]; exact Bool.false_ne_true),
        if_neg (by rw [hkind]; exact fun hc => PaneKind.noConfusion hc)]
      exact ⟨List.mem_cons_self _ _, List.mem_cons_self _ _⟩
    · obtain ⟨hm1, hm2⟩ := ih h
      by_cases h1 : memB (rebindPaneByTitle q t2i ids).paneId ids = true
      · rw [if_pos h1]
        exact ⟨List.mem_cons_of_mem _ hm1, hm2⟩
      · rw [if_neg h1]
        by_cases h2 : (rebindPaneByTitle q t2i ids).kind = PaneKind.shell
        · rw [if_pos h2]
          exact ⟨hm1, hm2⟩
        · rw [if_neg h2]
          exact ⟨List.mem_cons_of_mem _ hm1, List.mem_cons_of_mem _ hm2⟩

lemma mem_not_isEmpty {α : Type} (l : List α) (x : α) (h : x ∈ l) :
    l.isEmpty = false := by
  cases l with
  | nil => cases h
  | cons a rest => rfl

lemma lookupTitle_view (view : TmuxView) (s i : String)
    (h : lookupTitle (titleToId view) s = some i) :
    memB i (allPaneIds view) = true :=
  lookupTitle_titleToId view.live s i h

lemma active_pre (loaded : List DmuxPaneRec) (t2i : List (String × String))
    (ids : List String) :
    ∀ q ∈ (rebindAndFilterPanes loaded t2i ids).activePanes,
      memB q.paneId ids = true ∨ q.kind = PaneKind.worktree := by
  intro q hq
  rcases rebindAndFilterPanes_active_shape loaded t2i ids q hq with h | ⟨_, h2, _⟩
  · exact Or.inl h
  · exact Or.inr h2

lemma loadPanesPass_branch_norec (prev loaded : List DmuxPaneRec) (view : TmuxView)
    (cp : String) (fresh : Nat → String)
    (hrec : (rebindAndFilterPanes loaded (titleToId view)
      (allPaneIds view)).worktreePanesToRecreate.isEmpty = true) :
    (loadPanesPass prev loaded view cp fresh).finalPanes =
      (detectAndAddShellPanes (rebindAndFilterPanes loaded (titleToId view)
        (allPaneIds view)).activePanes view.live cp).1 ∧
    (loadPanesPass prev loaded view cp fresh).created = [] := by
  unfold loadPanesPass
  dsimp only
  rw [if_pos hrec]
  exact ⟨rfl, rfl⟩

lemma loadPanesPass_branch_rec (prev loaded : List DmuxPaneRec) (view : TmuxView)
    (cp : String) (fresh : Nat → String)
    (hrec : ¬(rebindAndFilterPanes loaded (titleToId view)
      (allPaneIds view)).worktreePanesToRecreate.isEmpty = true) :
    (loadPanesPass prev loaded view cp fresh).finalPanes =
      (detectAndAddShellPanes
        (recreateKilledWorktreePanes fresh (allPaneIds view)
          (rebindAndFilterPanes loaded (titleToId view)
            (allPaneIds view)).activePanes 0).1
        view.live cp).1 ∧
    (loadPanesPass prev loaded view cp fresh).created =
      (recreateKilledWorktreePanes fresh (allPaneIds view)
        (rebindAndFilterPanes loaded (titleToId view)
          (allPaneIds view)).activePanes 0).2 := by
  have hpre := active_pre loaded (titleToId view) (allPaneIds view)
  set r := rebindAndFilterPanes loaded (titleToId view) (allPaneIds view) with hr
  set out := recreateKilledWorktreePanes fresh (allPaneIds view) r.activePanes 0
    with hout
  set view' : TmuxView :=
    ⟨view.live ++ out.2.map (fun c => ⟨c.paneId, c.title⟩)⟩ with hview'
  have hout1ids : ∀ q ∈ out.1, memB q.paneId (allPaneIds view') = true := by
    intro q hq
    rw [hview', allPaneIds_append_created, memB_append, Bool.or_eq_true]
    rcases recreate_out_ids fresh (allPaneIds view) r.activePanes hpre 0 q hq with h | h
    · exact Or.inl h
    · exact Or.inr h
  have hrebound : out.1.map
      (fun p => rebindPaneByTitle p (titleToId view') (allPaneIds view')) = out.1 :=
    map_id_of _ _ (fun q hq => by rw [rebindPaneByTitle, if_pos (hout1ids q hq)])
  constructor
  · unfold loadPanesPass
    dsimp only
    rw [if_neg hrec]
    dsimp only
    rw [← hr, ← hout, ← hview', hrebound]
  · unfold loadPanesPass
    dsimp only
    rw [if_neg hrec]

/-- C4: a tracked worktree-kind record whose external pane id is absent from
the live pane list is rebound to a live pane titled with its slug when one
exists (same record, only the external id changes, and no created pane
carries that id); otherwise a fresh pane is created and `cd`'d into the
record's original `worktreePath`, the record keeping its logical id, slug
and worktree path while its external pane id becomes the fresh id. -/
theorem worktree_rebind_or_recreate (prev loaded : List DmuxPaneRec)
    (view : TmuxView) (cp : String) (fresh : Nat → String) (p : DmuxPaneRec)
    (hp : p ∈ loaded) (hkind : p.kind = PaneKind.worktree)
    (hdead : memB p.paneId (allPaneIds view) = false)
    (hfresh : ∀ k, memB (fresh k) (allPaneIds view) = false) :
    (∀ lid, lookupTitle (titleToId view) p.slug = some lid →
      { p with paneId := lid } ∈ (loadPanesPass prev loaded view cp fresh).finalPanes ∧
      ∀ c ∈ (loadPanesPass prev loaded view cp fresh).created, c.paneId ≠ lid) ∧
    (lookupTitle (titleToId view) p.slug = none →
      ∃ newId,
        { p with paneId := newId } ∈ (loadPanesPass prev loaded view cp fresh).finalPanes ∧
        CreatedPane.mk newId (p.worktreePath.getD "") p.slug ∈
          (loadPanesPass prev loaded view cp fresh).created) := by
  constructor
  · intro lid hlook
    have hreb : rebindPaneByTitle p (titleToId view) (allPaneIds view) =
        { p with paneId := lid } := by
      rw [rebindPaneByTitle, if_neg (by rw [hdead]; exact Bool.false_ne_true), hlook]
    have hlid : memB lid (allPaneIds view) = true := lookupTitle_view view p.slug lid hlook
    have halive : memB (rebindPaneByTitle p (titleToId view)
        (allPaneIds view)).paneId (allPaneIds view) = true := by
      rw [hreb]
      exact hlid
    have hmemact : { p with paneId := lid } ∈
        (rebindAndFilterPanes loaded (titleToId view) (allPaneIds view)).activePanes := by
      rw [← hreb]
      exact rebind_member_active loaded (titleToId view) (allPaneIds view) p hp halive
    by_cases hrecb : (rebindAndFilterPanes loaded (titleToId view)
        (allPaneIds view)).worktreePanesToRecreate.isEmpty = true
    · obtain ⟨hfp, hcr⟩ := loadPanesPass_branch_norec prev loaded view cp fresh hrecb
      refine ⟨by rw [hfp]; exact detect_mem_left _ _ _ _ hmemact, ?_⟩
      rw [hcr]
      intro c hc
      cases hc
    · obtain ⟨hfp, hcr⟩ := loadPanesPass_branch_rec prev loaded view cp fresh hrecb
      constructor
      · rw [hfp]
        refine detect_mem_left _ _ _ _ ?_
        exact recreate_keeps_alive fresh (allPaneIds view) _ 0 _ hmemact hlid
      · rw [hcr]
        intro c hc hceq
        obtain ⟨j, hj⟩ := recreate_created_fresh fresh (allPaneIds view) _ 0 c hc
        rw [hceq] at hj
        rw [hj] at hlid
        rw [hfresh j] at hlid
        exact Bool.false_ne_true hlid
  · intro hlook
    have hself : rebindPaneByTitle p (titleToId view) (allPaneIds view) = p := by
      rw [rebindPaneByTitle, if_neg (by rw [hdead]; exact Bool.false_ne_true), hlook]
    obtain ⟨hact, hrecr⟩ := dead_worktree_in_recreate loaded (titleToId view)
      (allPaneIds view) p hp hself hdead hkind
    have hrecb : ¬(rebindAndFilterPanes loaded (titleToId view)
        (allPaneIds view)).worktreePanesToRecreate.isEmpty = true := by
      rw [mem_not_isEmpty _ p hrecr]
      exact Bool.false_ne_true
    obtain ⟨hfp, hcr⟩ := loadPanesPass_branch_rec prev loaded view cp fresh hrecb
    obtain ⟨nid, ⟨j, hj⟩, h1, h2⟩ :=
      recreate_recreates fresh (allPaneIds view) _ 0 p hact hdead hkind
    refine ⟨nid, ?_, ?_⟩
    · rw [hfp]
      exact detect_mem_left _ _ _ _ h1
    · rw [hcr]
      exact h2

/-- Witness for C4: a single dead worktree record `x` with no live pane
titled `x` (the recreate path), against a view holding only the control
pane. -/
theorem worktree_rebind_or_recreate_witness :
    (∀ lid, lookupTitle (titleToId ⟨[⟨"%0", "dmux"⟩]⟩) "x" = some lid →
      { DmuxPaneRec.mk "id1" "%9" "x" PaneKind.worktree (some "/w/x") with paneId := lid } ∈
        (loadPanesPass [] [⟨"id1", "%9", "x", PaneKind.worktree, some "/w/x"⟩]
          ⟨[⟨"%0", "dmux"⟩]⟩ "%0" (fun _ => "%9")).finalPanes ∧
      ∀ c ∈ (loadPanesPass [] [⟨"id1", "%9", "x", PaneKind.worktree, some "/w/x"⟩]
          ⟨[⟨"%0", "dmux"⟩]⟩ "%0" (fun _ => "%9")).created, c.paneId ≠ lid) ∧
    (lookupTitle (titleToId ⟨[⟨"%0", "dmux"⟩]⟩) "x" = none →
      ∃ newId,
        { DmuxPaneRec.mk "id1" "%9" "x" PaneKind.worktree (some "/w/x") with
            paneId := newId } ∈
          (loadPanesPass [] [⟨"id1", "%9", "x", PaneKind.worktree, some "/w/x"⟩]
            ⟨[⟨"%0", "dmux"⟩]⟩ "%0" (fun _ => "%9")).finalPanes ∧
        CreatedPane.mk newId
            ((DmuxPaneRec.mk "id1" "%9" "x" PaneKind.worktree
              (some "/w/x")).worktreePath.getD "")
            (DmuxPaneRec.mk "id1" "%9" "x" PaneKind.worktree (some "/w/x")).slug ∈
          (loadPanesPass [] [⟨"id1", "%9", "x", PaneKind.worktree, some "/w/x"⟩]
            ⟨[⟨"%0", "dmux"⟩]⟩ "%0" (fun _ => "%9")).created) :=
  worktree_rebind_or_recreate [] [⟨"id1", "%9", "x", PaneKind.worktree, some "/w/x"⟩]
    ⟨[⟨"%0", "dmux"⟩]⟩ "%0" (fun _ => "%9")
    ⟨"id1", "%9", "x", PaneKind.worktree, some "/w/x"⟩
    (by decide) (by decide) (by decide)
    (by
      intro k
      show memB "%9" (allPaneIds ⟨[⟨"%0", "dmux"⟩]⟩) = false
      decide)

lemma lock_entry_survives (timeout : Nat) (id reason : String) (t0 : Nat) :
    ∀ (ops : List LockOp) (st : LockState),
      LockEntry.mk id reason t0 ∈ st →
      (∀ op ∈ ops, op ≠ LockOp.completeOp id) →
      (∀ now, LockOp.sweepOp now ∈ ops → now < t0 + timeout) →
      LockEntry.mk id reason t0 ∈ applyLockOps timeout st ops := by
  intro ops
  induction ops with
  | nil => intro st hmem _ _; exact hmem
  | cons op rest ih =>
    intro st hmem hnc hsw
    rw [applyLockOps, List.foldl_cons]
    have hnc' : ∀ o ∈ rest, o ≠ LockOp.completeOp id :=
      fun o ho => hnc o (List.mem_cons_of_mem _ ho)
    have hsw' : ∀ now, LockOp.sweepOp now ∈ rest → now < t0 + timeout :=
      fun now hn => hsw now (List.mem_cons_of_mem _ hn)
    refine ih (applyLockOp timeout st op) ?_ hnc' hsw'
    cases op with
    | beginOp k r t =>
      exact List.mem_cons_of_mem _ hmem
    | completeOp k =>
      refine List.mem_filter.mpr ⟨hmem, ?_⟩
      have hk : k ≠ id := by
        intro hk
        exact hnc (LockOp.completeOp k) (List.mem_cons_self _ _) (by rw [hk])
      simp only [decide_eq_true_eq]
      exact fun hc => hk hc.symm
    | sweepOp now =>
      refine List.mem_filter.mpr ⟨hmem, ?_⟩
      simp only [decide_eq_true_eq]
      exact hsw now (List.mem_cons_self _ _)

/-- C5: if `beginClose(id)` has been called and neither `completeClose(id)`
nor a lock-timeout sweep has since intervened (other keys may be begun or
completed, and sweeps within the timeout may run), then `isClosing id`
still holds and the pane-removed handler treats the pane's disappearance as
an intentional close: it returns the tracked collection unchanged and does
not write the state file. -/
theorem beginClose_fences_onPaneRemoved (timeout : Nat) (st0 : LockState)
    (id reason : String) (t0 : Nat) (ops : List LockOp)
    (panes : List DmuxPaneRec)
    (hnc : ∀ op ∈ ops, op ≠ LockOp.completeOp id)
    (hsw : ∀ now, LockOp.sweepOp now ∈ ops → now < t0 + timeout) :
    isClosing (applyLockOps timeout (beginClose st0 id reason t0) ops) id = true ∧
    onPaneRemoved (applyLockOps timeout (beginClose st0 id reason t0) ops) panes id =
      (panes, false) := by
  have hmem : LockEntry.mk id reason t0 ∈
      applyLockOps timeout (beginClose st0 id reason t0) ops :=
    lock_entry_survives timeout id reason t0 ops (beginClose st0 id reason t0)
      (List.mem_cons_self _ _) hnc hsw
  have hclosing : isClosing
      (applyLockOps timeout (beginClose st0 id reason t0) ops) id = true := by
    unfold isClosing
    rw [List.any_eq_true]
    exact ⟨_, hmem, by simp⟩
  refine ⟨hclosing, ?_⟩
  unfold onPaneRemoved
  rw [hclosing]
  simp

/-- Witness for C5: `beginClose "p1"` at time 0 with a 30-tick timeout,
followed by an unrelated `beginClose`, an unrelated `completeClose`, and a
sweep at time 10. -/
theorem beginClose_fences_onPaneRemoved_witness :
    isClosing (applyLockOps 30 (beginClose [] "p1" "close action: kill_only" 0)
      [LockOp.beginOp "p2" "user requested" 5, LockOp.completeOp "p2",
        LockOp.sweepOp 10]) "p1" = true ∧
    onPaneRemoved (applyLockOps 30 (beginClose [] "p1" "close action: kill_only" 0)
      [LockOp.beginOp "p2" "user requested" 5, LockOp.completeOp "p2",
        LockOp.sweepOp 10])
      [⟨"p1", "%3", "x", PaneKind.worktree, some "/w/x"⟩] "p1" =
      ([⟨"p1", "%3", "x", PaneKind.worktree, some "/w/x"⟩], false) :=
  beginClose_fences_onPaneRemoved 30 [] "p1" "close action: kill_only" 0
    [LockOp.beginOp "p2" "user requested" 5, LockOp.completeOp "p2", LockOp.sweepOp 10]
    [⟨"p1", "%3", "x", PaneKind.worktree, some "/w/x"⟩]
    (by decide)
    (by
      intro now hn
      simp only [List.mem_cons, List.not_mem_nil, or_false] at hn
      rcases hn with h | h | h
      · exact LockOp.noConfusion h
      · exact LockOp.noConfusion h
      · injection h with h'
        omega)

/-- C8: the sibling slug is anchored to the basename of the target pane's
worktree path (so it does not depend on the requesting pane's own slug and
repeated attach-from-an-attached-pane never compounds suffixes), falling
back to the pane's slug when no worktree path is present; the result is
`base ++ "-a" ++ (m + 1)` where `m` is the maximum numeric `base-aN`
suffix among existing slugs, floored at 1; in particular with existing
slugs `x` and `x-a2`, attaching to the worktree directory `x` from the
pane slugged `x-a2` yields `x-a3`. -/
theorem generateSiblingSlug_spec :
    (∀ (slug slug2 p : String) (existing : List String),
      posixBasename p ≠ "" →
      generateSiblingSlugForTargetPane slug (some p) existing =
        posixBasename p ++ "-a" ++
          toString (maxSiblingOf (posixBasename p ++ "-a") existing + 1) ∧
      generateSiblingSlugForTargetPane slug (some p) existing =
        generateSiblingSlugForTargetPane slug2 (some p) existing) ∧
    (∀ (slug : String) (existing : List String),
      generateSiblingSlugForTargetPane slug none existing =
        slug ++ "-a" ++ toString (maxSiblingOf (slug ++ "-a") existing + 1)) ∧
    generateSiblingSlugForTargetPane "x-a2" (some "/repo/.dmux/worktrees/x")
      ["x", "x-a2"] = "x-a3" := by
  refine ⟨?_, ?_, by decide⟩
  · intro slug slug2 p existing hbase
    unfold generateSiblingSlugForTargetPane
    dsimp only
    rw [if_neg hbase, if_neg hbase]
    exact ⟨rfl, rfl⟩
  · intro slug existing
    unfold generateSiblingSlugForTargetPane
    dsimp only
    rw [if_pos rfl]

/-- Witness for C8 at the concrete scenario of the claim: target pane
slugged `x-a2` on worktree `/repo/.dmux/worktrees/x`, existing slugs
`x` and `x-a2`. -/
theorem generateSiblingSlug_spec_witness :
    generateSiblingSlugForTargetPane "x-a2" (some "/repo/.dmux/worktrees/x")
        ["x", "x-a2"] =
      posixBasename "/repo/.dmux/worktrees/x" ++ "-a" ++
        toString (maxSiblingOf (posixBasename "/repo/.dmux/worktrees/x" ++ "-a")
          ["x", "x-a2"] + 1) ∧
    generateSiblingSlugForTargetPane "x-a2" (some "/repo/.dmux/worktrees/x")
        ["x", "x-a2"] =
      generateSiblingSlugForTargetPane "y" (some "/repo/.dmux/worktrees/x")
        ["x", "x-a2"] :=
  (generateSiblingSlug_spec.1 "x-a2" "y" "/repo/.dmux/worktrees/x" ["x", "x-a2"]
    (by decide))
